import Mathlib

/-!
# goelan: login handshake handlers and response encoder

A shallow embedding of `server/handling.go` and `protocol/responses.go`.

* Go byte slices are lists of `Byte` (`Fin 256`); a Go `string` is its byte
  sequence (`GoString`), string literals are given by `str`.
* A `*Connection` is the record `Connection`; what a handler does to the
  outside (frames handed to `sender.Write`, `sender.Disconnect`, calls to the
  collaborators) is appended to the `events` of a `World`.
* A Go `panic` is the `Outcome.panicked` result, carrying the world as it was
  when the panic was raised.
* `log.Debug` / `log.Error` calls have no effect on the connection and are not
  recorded.
-/

namespace Goelan

/-! ## Bytes and strings -/

/-- A Go `byte`. -/
abbrev Byte := Fin 256

/-- Conversion `byte(n)`: the low eight bits. -/
def toByte (n : Nat) : Byte := ⟨n % 256, Nat.mod_lt n (by decide)⟩

/-- A Go `string`: an immutable sequence of bytes. -/
abbrev GoString := List Byte

/-- UTF-8 bytes of one code point, as the Go compiler lays out a string literal. -/
def utf8Char (c : Char) : List Byte :=
  let n := c.toNat
  if n < 128 then [toByte n]
  else if n < 2048 then [toByte (192 + n / 64), toByte (128 + n % 64)]
  else if n < 65536 then
    [toByte (224 + n / 4096), toByte (128 + n / 64 % 64), toByte (128 + n % 64)]
  else
    [toByte (240 + n / 262144), toByte (128 + n / 4096 % 64), toByte (128 + n / 64 % 64),
      toByte (128 + n % 64)]

/-- The Go string denoted by a literal. -/
def str (s : String) : GoString := s.data.flatMap utf8Char

/-! ## `protocol`: varints (declared outside the two embedded files) -/

/-- Groups of seven bits, least significant first, continuation bit on all but the last. -/
def uvarintGroups : Nat → Nat → List Byte
  | 0, _ => []
  | fuel + 1, i =>
    if i < 128 then [toByte i] else toByte (i % 128 + 128) :: uvarintGroups fuel (i / 128)

/-- Modelled from the spec: `Uvarint(i uint32) []byte` of package `protocol` is not part of
the embedded files. Section 4.1: least-significant group first, seven payload bits per byte,
continuation bit on every byte but the last; `0` is one zero byte and `2^32-1` takes five bytes.
The argument is a `uint32`, so only `i % 2^32` is encoded. -/
def Uvarint (i : Nat) : List Byte := uvarintGroups 5 (i % 2 ^ 32)

/-- Modelled from the spec: `Varint(i int32) []byte` of package `protocol`. Section 4.1: signed
values use the unsigned representation of the same bit pattern (no zig-zag). -/
def Varint (i : Int) : List Byte := Uvarint (i % 2 ^ 32).toNat

/-! ## `protocol/responses.go` -/

/-- Big-endian bytes of the low `8 * width` bits of `n` (`binary.Write` with `ByteOrder`;
section 6 of the specification fixes big-endian for all fixed-width fields). -/
def bigEndian : Nat → Nat → List Byte
  | 0, _ => []
  | width + 1, n => toByte (n / 256 ^ width) :: bigEndian width n

/-- `type Response struct { data *bytes.Buffer }`. -/
structure Response where
  data : List Byte
  deriving DecidableEq, Repr

/-- `NewResponse`. -/
def NewResponse : Response := ⟨[]⟩

namespace Response

/-- `WriteByte(b int8)`: appends `byte(b)`. -/
def WriteByte (r : Response) (b : Int) : Response := ⟨r.data ++ [toByte (b % 256).toNat]⟩

/-- `WriteBoolean`. -/
def WriteBoolean (r : Response) (b : Bool) : Response :=
  if b then r.WriteByte 1 else r.WriteByte 0

/-- `WriteUnsignedByte(b uint8)`. -/
def WriteUnsignedByte (r : Response) (b : Nat) : Response := ⟨r.data ++ bigEndian 1 (b % 256)⟩

/-- `WriteUVarint(i uint32)`; `bytes.Buffer.Write` never returns an error. -/
def WriteUVarint (r : Response) (i : Nat) : Response := ⟨r.data ++ Uvarint i⟩

/-- `WriteVarint(i int32)`. -/
def WriteVarint (r : Response) (i : Int) : Response := ⟨r.data ++ Varint i⟩

/-- `WriteInt(i int)`: writes `int32(i)`. -/
def WriteInt (r : Response) (i : Int) : Response := ⟨r.data ++ bigEndian 4 (i % 2 ^ 32).toNat⟩

/-- `WriteLong(l int64)`. -/
def WriteLong (r : Response) (l : Int) : Response := ⟨r.data ++ bigEndian 8 (l % 2 ^ 64).toNat⟩

/-- `WriteByteArray`: `WriteUVarint(uint32(len(b)))` then the bytes. -/
def WriteByteArray (r : Response) (b : List Byte) : Response :=
  ⟨(r.WriteUVarint (b.length % 2 ^ 32)).data ++ b⟩

/-- `WriteString`: `WriteByteArray([]byte(str))`. -/
def WriteString (r : Response) (s : GoString) : Response := r.WriteByteArray s

/-- `Clear`: a new empty buffer. -/
def Clear (_r : Response) : Response := ⟨[]⟩

/-- `WriteJSON`: `json.Marshal` (standard library) is the argument `marshal`, with `none` for
its error. On that error `WriteJSON` panics (`none`); otherwise it writes the JSON text as a
byte array. -/
def WriteJSON {α : Type} (marshal : α → Option (List Byte)) (r : Response) (obj : α) :
    Option Response :=
  match marshal obj with
  | none => none
  | some j => some (r.WriteByteArray j)

end Response

/-- Modelled from the spec: `RawPacket` is declared outside the embedded files. Section 3:
a frame is an id and a payload; `Data` is what the read cursor has not consumed yet. -/
structure RawPacket where
  ID : Nat
  Data : List Byte
  deriving DecidableEq, Repr

/-- `ToRawPacket`: `NewRawPacket(id, r.data.Bytes(), nil)`. -/
def Response.ToRawPacket (r : Response) (id : Nat) : RawPacket := ⟨id, r.data⟩

/-! ## `protocol`: payload readers (declared outside the embedded files) -/

/-- Reads seven-bit groups until a byte without the continuation bit; `none` when the payload
ends first. -/
def decodeUvarint : List Byte → Option (Nat × List Byte)
  | [] => none
  | b :: rest =>
    if b.val < 128 then some (b.val, rest)
    else
      match decodeUvarint rest with
      | none => none
      | some (v, rest') => some (b.val % 128 + 128 * v, rest')

/-- Modelled from the spec: `RawPacket.ReadUnsignedVarint` is not part of the embedded files.
Section 4.1: decoding reverses the encoding and an unterminated stream is an error (`none`,
which section 7 says surfaces as a fatal stop); the result is an unsigned 32-bit integer. -/
def ReadUnsignedVarint (data : List Byte) : Option (Nat × List Byte) :=
  match decodeUvarint data with
  | none => none
  | some (v, rest) => some (v % 2 ^ 32, rest)

/-- Modelled from the spec: `RawPacket.ReadByteArray` is not part of the embedded files.
Section 4.2: uvarint length prefix then that many raw bytes; fewer bytes remaining is the
`Truncated` error (`none`). -/
def ReadByteArray (data : List Byte) : Option (List Byte × List Byte) :=
  match ReadUnsignedVarint data with
  | none => none
  | some (n, rest) => if rest.length < n then none else some (rest.take n, rest.drop n)

/-- Modelled from the spec: `RawPacket.ReadString` is not part of the embedded files.
Section 4.2: a string is a byte array of UTF-8 bytes. -/
def ReadString (data : List Byte) : Option (GoString × List Byte) := ReadByteArray data

/-- Modelled from the spec: `RawPacket.ReadUnsignedShort` is not part of the embedded files.
Two bytes, big-endian. -/
def ReadUnsignedShort : List Byte → Option (Nat × List Byte)
  | b0 :: b1 :: rest => some (b0.val * 256 + b1.val, rest)
  | _ => none

/-- Value of a big-endian byte sequence. -/
def fromBigEndian (bs : List Byte) : Nat := bs.foldl (fun acc b => acc * 256 + b.val) 0

/-- Modelled from the spec: `RawPacket.ReadLong` is not part of the embedded files.
Section 4.2: a 64-bit signed long is eight bytes, big-endian (two's complement). -/
def ReadLong (data : List Byte) : Option (Int × List Byte) :=
  if data.length < 8 then none
  else
    let n := fromBigEndian (data.take 8)
    some (if n < 2 ^ 63 then (n : Int) else (n : Int) - 2 ^ 64, data.drop 8)

/-! ## Connections, collaborators and the observable trace -/

/-- Modelled from the spec: `ConnectionState` of package `protocol` is declared outside the
embedded files. Section 3: the phase is one of Handshake, Login, Play; the constructors carry
the names `handling.go` uses. -/
inductive ConnectionState where
  | HandshakeState
  | LoginState
  | PlayState
  deriving DecidableEq, Repr

open ConnectionState

/-- Position in the order Handshake < Login < Play. -/
def ConnectionState.rank : ConnectionState → Nat
  | HandshakeState => 0
  | LoginState => 1
  | PlayState => 2

/-- The four handler functions of `handling.go`, by name. -/
inductive Handler where
  | handshakeHandler
  | pingPongHandler
  | loginStartHandler
  | encryptionResponseHandler
  deriving DecidableEq, Repr

/-- `type stateMapHandler struct { handlers map[uint64]PacketHandler }`; the map is the list of
the entries of its literal. -/
structure stateMapHandler where
  handlers : List (Nat × Handler)
  deriving DecidableEq, Repr

/-- A byte stream of the connection: the transport itself, or a `cipher.StreamWriter` /
`cipher.StreamReader` around another stream with a CFB8 stream keyed by `key`. -/
inductive Stream where
  | transport
  | cipher (key : List Byte) (inner : Stream)
  deriving DecidableEq, Repr

/-- Modelled from the spec: the type of `sender.Reader` is declared outside the embedded files.
The handler replaces its field `R`, the source it reads from, and leaves the reader itself in
place; section 5 speaks of bytes already buffered unread when the source is replaced, which
are `buffered`. -/
structure ByteReader where
  buffered : List Byte
  R : Stream
  deriving DecidableEq, Repr

/-- `util.UUID`, by the two fields `WriteUUID` reads: the 64-bit halves. -/
structure UUID where
  MostSig : Int
  LeastSig : Int
  deriving DecidableEq, Repr

/-- `auth.Profile`, by the two fields `encryptionResponseHandler` reads. -/
structure Profile where
  UUID : UUID
  Name : GoString
  deriving DecidableEq, Repr

/-- Modelled from the spec: `Connection` is declared outside the embedded files. Section 3 gives
its fields; `PacketHandler` is the field `AssignHandler` assigns. -/
structure Connection where
  Reader : ByteReader
  Writer : Stream
  ProtocolVersion : Nat
  ConnectionState : ConnectionState
  VerifyToken : List Byte
  VerifyUsername : GoString
  SharedSecret : List Byte
  PacketHandler : Option stateMapHandler
  deriving DecidableEq, Repr

/-- What a handler does to the outside, in order. -/
inductive Event where
  /-- `sender.Write(packet)`, with the output stream in place at that moment. -/
  | write (via : Stream) (packet : RawPacket)
  /-- `sender.Disconnect(reason)`, with the output stream in place at that moment. -/
  | disconnect (via : Stream) (reason : GoString)
  /-- `auth.Auth(username, sharedSecret, publicKey)`. -/
  | auth (username : GoString) (sharedSecret : List Byte) (publicKey : List Byte)
  /-- `CanConnect(name, uuid)`. -/
  | canConnect (name : GoString) (uuid : UUID)
  /-- `FinishLogin(profile, sender)`. -/
  | finishLogin (profile : Profile)
  deriving DecidableEq, Repr

/-- A connection together with everything done on its behalf so far. `drawn` counts the
verify tokens generated. -/
structure World where
  conn : Connection
  events : List Event
  drawn : Nat
  deriving DecidableEq, Repr

/-- Result of running a handler: it returned, or a `panic` stopped it. -/
inductive Outcome where
  | returned (w : World)
  | panicked (w : World)
  deriving DecidableEq, Repr

/-- The world a handler run ended in. -/
def Outcome.world : Outcome → World
  | .returned w => w
  | .panicked w => w

/-- The value `GetServerVersion` returns, by the two fields the handlers read. -/
structure ServerVersion where
  Name : GoString
  ProtocolVersion : Nat
  deriving DecidableEq, Repr

/-- `Version` of the server list ping. -/
structure Version where
  Name : GoString
  Protocol : Nat
  deriving DecidableEq, Repr

/-- `Players` of the server list ping. -/
structure Players where
  Max : Int
  Online : Int
  deriving DecidableEq, Repr

/-- `Chat` of the server list ping. -/
structure Chat where
  Text : GoString
  deriving DecidableEq, Repr

/-- `ServerListPing`, the status descriptor. -/
structure ServerListPing where
  Ver : Version
  Pl : Players
  Desc : Chat
  Fav : GoString
  deriving DecidableEq, Repr

/-- Everything the handlers take from outside the two embedded files: the packet-id and
next-state constants of package `protocol`, the server interface, and the library and
collaborator functions. -/
structure Env where
  HandshakePacketId : Nat
  PingPacketId : Nat
  LoginStartPacketId : Nat
  EncryptionResponsePacketId : Nat
  EncryptionRequestPacketId : Nat
  LoginSuccessPacketId : Nat
  JoinGamePacketId : Nat
  HandshakeStatusNextState : Nat
  HandshakeLoginNextState : Nat
  GetServerVersion : ServerVersion
  GetMaxPlayers : Int
  GetOnlinePlayersCount : Int
  GetMotd : GoString
  HasFavicon : Bool
  GetFavicon : GoString
  IsOnlineMode : Bool
  GetPublicKey : List Byte
  GetPrivateKey : List Byte
  CanConnect : GoString → UUID → Bool × GoString
  /-- `rsa.DecryptPKCS1v15(rand.Reader, key, ciphertext)`; `none` is its error. -/
  DecryptPKCS1v15 : List Byte → List Byte → Option (List Byte)
  /-- `encrypt.GenerateVerifyToken()`: the token of the `n`-th call. -/
  GenerateVerifyToken : Nat → List Byte
  /-- `auth.Auth`; `none` is its error. -/
  Auth : GoString → List Byte → List Byte → Option Profile
  /-- `util.ToHypenUUID`. -/
  ToHypenUUID : UUID → GoString
  /-- `json.Marshal` on the status descriptor; `none` is its error. -/
  jsonMarshal : ServerListPing → Option (List Byte)

/-- Modelled from the spec: `EmtpyArray` of package `protocol` is declared outside the embedded
files. Section 4.7: the stored verify token is cleared, so it is the empty byte slice. -/
def EmtpyArray : List Byte := []

/-- `aes.NewCipher` (standard library) accepts keys of 16, 24 or 32 bytes and returns an error
for every other length. -/
def aesKeySize (key : List Byte) : Bool :=
  key.length == 16 || key.length == 24 || key.length == 32

namespace World

/-- `sender.Write(packet)`. -/
def Write (w : World) (packet : RawPacket) : World :=
  { w with events := w.events ++ [Event.write w.conn.Writer packet] }

/-- `sender.Disconnect(reason)`. -/
def Disconnect (w : World) (reason : GoString) : World :=
  { w with events := w.events ++ [Event.disconnect w.conn.Writer reason] }

/-- Records a call to a collaborator. -/
def record (w : World) (e : Event) : World := { w with events := w.events ++ [e] }

end World

/-- Frames handed to `sender.Write`, in order. -/
def framesWritten : List Event → List RawPacket
  | [] => []
  | Event.write _ p :: es => p :: framesWritten es
  | _ :: es => framesWritten es

/-- Reasons given to `sender.Disconnect`, in order. -/
def disconnectReasons : List Event → List GoString
  | [] => []
  | Event.disconnect _ r :: es => r :: disconnectReasons es
  | _ :: es => disconnectReasons es

/-! ## `server/handling.go` -/

/-- The table `handlers` as `init` fills it; `none` stands for a missing key. -/
def handlers (env : Env) : ConnectionState → Option stateMapHandler
  | HandshakeState => some ⟨[(env.HandshakePacketId, Handler.handshakeHandler),
      (env.PingPacketId, Handler.pingPongHandler)]⟩
  | LoginState => some ⟨[(env.LoginStartPacketId, Handler.loginStartHandler),
      (env.EncryptionResponsePacketId, Handler.encryptionResponseHandler)]⟩
  | PlayState => some ⟨[]⟩

/-- `AssignHandler`: stores the table entry of the connection's phase on the connection. -/
def AssignHandler (env : Env) (conn : Connection) : Connection :=
  match handlers env conn.ConnectionState with
  | some h => { conn with PacketHandler := some h }
  | none => conn

/-- The descriptor `list` that `handshakeHandler` builds for a status request: `Fav` starts as
`""` and is replaced by the favicon when the server has one. -/
def statusList (env : Env) : ServerListPing :=
  let version := env.GetServerVersion
  let list : ServerListPing :=
    { Ver := { Name := version.Name, Protocol := version.ProtocolVersion },
      Pl := { Max := env.GetMaxPlayers, Online := env.GetOnlinePlayersCount },
      Desc := { Text := env.GetMotd },
      Fav := str "" }
  if env.HasFavicon then { list with Fav := env.GetFavicon } else list

/-- `handshakeHandler`. -/
def handshakeHandler (env : Env) (packet : RawPacket) (w : World) : Outcome :=
  match ReadUnsignedVarint packet.Data with
  | none => .panicked w
  | some (version, d1) =>
    let w1 : World := { w with conn := { w.conn with ProtocolVersion := version } }
    match ReadString d1 with
    | none => .panicked w1
    | some (_, d2) =>
      match ReadUnsignedShort d2 with
      | none => .panicked w1
      | some (_, d3) =>
        match ReadUnsignedVarint d3 with
        | none => .panicked w1
        | some (nextState, _) =>
          if nextState = env.HandshakeStatusNextState then
            match NewResponse.WriteJSON env.jsonMarshal (statusList env) with
            | none => .panicked w1
            | some response => .returned (w1.Write (response.ToRawPacket env.HandshakePacketId))
          else if nextState = env.HandshakeLoginNextState then
            .returned { w1 with
              conn := AssignHandler env { w1.conn with ConnectionState := LoginState } }
          else
            .returned w1

/-- `pingPongHandler`. -/
def pingPongHandler (env : Env) (packet : RawPacket) (w : World) : Outcome :=
  match ReadLong packet.Data with
  | none => .panicked w
  | some (payload, _) =>
    let response := NewResponse.WriteLong payload
    .returned (w.Write (response.ToRawPacket env.PingPacketId))

/-- `loginStartHandler`. -/
def loginStartHandler (env : Env) (packet : RawPacket) (w : World) : Outcome :=
  match ReadString packet.Data with
  | none => .panicked w
  | some (username, _) =>
    let response := NewResponse
    if env.GetServerVersion.ProtocolVersion > w.conn.ProtocolVersion then
      .returned (w.Disconnect
        (str "Your client is outdated. I'm on " ++ env.GetServerVersion.Name ++ str "."))
    else if env.GetServerVersion.ProtocolVersion < w.conn.ProtocolVersion then
      .returned (w.Disconnect (str "I'm still on " ++ env.GetServerVersion.Name ++ str "."))
    else if env.IsOnlineMode then
      let token := env.GenerateVerifyToken w.drawn
      let w1 : World := { w with drawn := w.drawn + 1 }
      let publicKey := env.GetPublicKey
      let response := ((response.WriteString (str "")).WriteByteArray publicKey).WriteByteArray token
      let w2 := w1.Write (response.ToRawPacket env.EncryptionRequestPacketId)
      .returned { w2 with conn := { w2.conn with VerifyToken := token, VerifyUsername := username } }
    else
      .returned w

/-- `encryptionResponseHandler`. -/
def encryptionResponseHandler (env : Env) (packet : RawPacket) (w : World) : Outcome :=
  match ReadByteArray packet.Data with
  | none => .panicked w
  | some (encryptedSecret, d1) =>
    match env.DecryptPKCS1v15 env.GetPrivateKey encryptedSecret with
    | none => .panicked w
    | some sharedSecret =>
      match ReadByteArray d1 with
      | none => .panicked w
      | some (encryptedToken, _) =>
        match env.DecryptPKCS1v15 env.GetPrivateKey encryptedToken with
        | none => .panicked w
        | some verifyToken =>
          if verifyToken ≠ w.conn.VerifyToken then
            .returned (w.Disconnect (str "Invalid verify token."))
          else if aesKeySize sharedSecret = false then
            .panicked w
          else
            let w1 : World := { w with conn := { w.conn with
              Writer := Stream.cipher sharedSecret w.conn.Writer,
              Reader := { w.conn.Reader with
                R := Stream.cipher sharedSecret w.conn.Reader.R } } }
            let w2 := w1.record (Event.auth w1.conn.VerifyUsername sharedSecret env.GetPublicKey)
            match env.Auth w1.conn.VerifyUsername sharedSecret env.GetPublicKey with
            | none => .returned (w2.Disconnect (str "Could not connect to Mojang servers."))
            | some profile =>
              let response :=
                (NewResponse.WriteString (env.ToHypenUUID profile.UUID)).WriteString profile.Name
              let w3 := w2.Write (response.ToRawPacket env.LoginSuccessPacketId)
              let w4 : World := { w3 with conn := { w3.conn with
                SharedSecret := sharedSecret, VerifyToken := EmtpyArray, VerifyUsername := str "" } }
              let w5 := w4.record (Event.canConnect profile.Name profile.UUID)
              match env.CanConnect profile.Name profile.UUID with
              | (false, reason) => .returned (w5.Disconnect reason)
              | (true, _) =>
                let w6 : World := { w5 with
                  conn := AssignHandler env { w5.conn with ConnectionState := PlayState } }
                let w7 := w6.record (Event.finishLogin profile)
                let response := response.Clear
                let response := ((((((response.WriteInt 0).WriteUnsignedByte 1).WriteInt 0
                  ).WriteUnsignedByte 0).WriteUnsignedByte 0).WriteString (str "default")
                  ).WriteBoolean false
                .returned (w7.Write (response.ToRawPacket env.JoinGamePacketId))

/-- The function a handler name stands for. -/
def Handler.run : Handler → Env → RawPacket → World → Outcome
  | .handshakeHandler => Goelan.handshakeHandler
  | .pingPongHandler => Goelan.pingPongHandler
  | .loginStartHandler => Goelan.loginStartHandler
  | .encryptionResponseHandler => Goelan.encryptionResponseHandler

/-- `stateMapHandler.callHandler`: runs the handler registered for the packet id, if any. -/
def stateMapHandler.callHandler (handler : stateMapHandler) (env : Env) (packet : RawPacket)
    (w : World) : Outcome :=
  match handler.handlers.lookup packet.ID with
  | some h => h.run env packet w
  | none => .returned w

/-- `CallHandler`: dispatches on the phase of the sender. -/
def CallHandler (env : Env) (packet : RawPacket) (w : World) : Outcome :=
  match handlers env w.conn.ConnectionState with
  | some handler => handler.callHandler env packet w
  | none => .returned w

/-- Dispatches the frames one after the other; a panic ends the run. -/
def runFrames (env : Env) : List RawPacket → World → Outcome
  | [], w => .returned w
  | p :: ps, w =>
    match CallHandler env p w with
    | .returned w1 => runFrames env ps w1
    | .panicked w1 => .panicked w1

/-- Whether the table of phase `s` has a handler registered for frame id `id`. -/
def hasHandler (env : Env) (s : ConnectionState) (id : Nat) : Bool :=
  match handlers env s with
  | some h => (h.handlers.lookup id).isSome
  | none => false

/-! ## A concrete server and concrete frames -/

/-- A server with the packet ids of protocol 340, online mode on, a decryption that returns
its input and an identity service that accepts every user under the name asked for. -/
def demoEnv : Env where
  HandshakePacketId := 0
  PingPacketId := 1
  LoginStartPacketId := 0
  EncryptionResponsePacketId := 1
  EncryptionRequestPacketId := 1
  LoginSuccessPacketId := 2
  JoinGamePacketId := 35
  HandshakeStatusNextState := 1
  HandshakeLoginNextState := 2
  GetServerVersion := ⟨str "1.12.2", 340⟩
  GetMaxPlayers := 20
  GetOnlinePlayersCount := 3
  GetMotd := str "A goelan server"
  HasFavicon := false
  GetFavicon := []
  IsOnlineMode := true
  GetPublicKey := [48, 129, 159]
  GetPrivateKey := [48, 130, 2]
  CanConnect := fun _ _ => (true, [])
  DecryptPKCS1v15 := fun _ ciphertext => some ciphertext
  GenerateVerifyToken := fun n => [toByte n, 7, 7, 7]
  Auth := fun username _ _ => some ⟨⟨0, 42⟩, username⟩
  ToHypenUUID := fun _ => str "00000000-0000-0000-0000-00000000002a"
  jsonMarshal := fun l => some (l.Ver.Name ++ l.Desc.Text ++ l.Fav)

/-- The same server with online mode off. -/
def offlineEnv : Env := { demoEnv with IsOnlineMode := false }

/-- The same server refusing every admission. -/
def closedEnv : Env := { demoEnv with CanConnect := fun _ _ => (false, str "Server is full.") }

/-- A fresh connection: Handshake phase, nothing stored, plain streams. -/
def freshConn : Connection where
  Reader := ⟨[], Stream.transport⟩
  Writer := Stream.transport
  ProtocolVersion := 0
  ConnectionState := HandshakeState
  VerifyToken := []
  VerifyUsername := []
  SharedSecret := []
  PacketHandler := handlers demoEnv HandshakeState

/-- A fresh connection on which nothing has happened yet. -/
def freshWorld : World := ⟨freshConn, [], 0⟩

/-- A connection in the Login phase that declared protocol 340 and was issued the token
`[0, 7, 7, 7]` for user `Steve`. -/
def loginWorld : World :=
  { conn := { freshConn with
      ProtocolVersion := 340
      ConnectionState := LoginState
      VerifyToken := [0, 7, 7, 7]
      VerifyUsername := str "Steve"
      PacketHandler := handlers demoEnv LoginState }
    events := []
    drawn := 1 }

/-- Handshake frame: protocol 340, address `localhost`, port 25565 and the given next state. -/
def handshakeFrame (nextState : Nat) : RawPacket :=
  ⟨0, Uvarint 340 ++ [9] ++ str "localhost" ++ [99, 221] ++ Uvarint nextState⟩

/-- Login-start frame of user `Steve`. -/
def loginStartFrame : RawPacket := ⟨0, [5] ++ str "Steve"⟩

/-- A sixteen-byte shared secret. -/
def demoSecret : List Byte := [1, 2, 3, 4, 5, 6, 7, 8, 9, 10, 11, 12, 13, 14, 15, 16]

/-- Encryption-response frame carrying `demoSecret` and the given verify token. -/
def encryptionResponseFrame (token : List Byte) : RawPacket :=
  ⟨1, [16] ++ demoSecret ++ Uvarint token.length ++ token⟩

/-- Ping frame with a nine-byte payload. -/
def pingFrame : RawPacket := ⟨1, [255, 0, 1, 2, 3, 4, 5, 254, 9]⟩

/-! ## The login sequence, as predicates on a run -/

/-- Frame `f`, dispatched in world `w`, is a login-start frame handled with the declared
protocol version equal to the server's, and it issues the verify token `t`. -/
def issuesToken (env : Env) (f : RawPacket) (w : World) (t : List Byte) : Prop :=
  w.conn.ConnectionState = LoginState ∧ f.ID = env.LoginStartPacketId ∧
  (∃ u rest, ReadString f.Data = some (u, rest)) ∧
  w.conn.ProtocolVersion = env.GetServerVersion.ProtocolVersion ∧
  env.IsOnlineMode = true ∧ t = env.GenerateVerifyToken w.drawn

/-- Frame `g`, dispatched in world `w`, is an encryption-response frame handled in the Login
phase whose verify token decrypts to `t`, with a shared secret of valid AES key size, identity
verification and the admission check both succeeding. -/
def completesLogin (env : Env) (g : RawPacket) (w : World) (t : List Byte) : Prop :=
  w.conn.ConnectionState = LoginState ∧ g.ID = env.EncryptionResponsePacketId ∧
  ∃ encryptedSecret d1 sharedSecret encryptedToken d2 profile reason,
    ReadByteArray g.Data = some (encryptedSecret, d1) ∧
    env.DecryptPKCS1v15 env.GetPrivateKey encryptedSecret = some sharedSecret ∧
    ReadByteArray d1 = some (encryptedToken, d2) ∧
    env.DecryptPKCS1v15 env.GetPrivateKey encryptedToken = some t ∧
    aesKeySize sharedSecret = true ∧
    env.Auth w.conn.VerifyUsername sharedSecret env.GetPublicKey = some profile ∧
    env.CanConnect profile.Name profile.UUID = (true, reason)

/-- The full login sequence inside the run of `fs` from `w0`: a login-start frame that issues
a token, and later an encryption-response frame whose decrypted token is that token. -/
def fullLoginSequence (env : Env) (fs : List RawPacket) (w0 : World) : Prop :=
  ∃ pre f mid g post w2 w1 t,
    fs = pre ++ f :: (mid ++ g :: post) ∧
    runFrames env pre w0 = .returned w2 ∧ issuesToken env f w2 t ∧
    runFrames env (pre ++ f :: mid) w0 = .returned w1 ∧ completesLogin env g w1 t

/-- Where a stored verify token `t` can come from after the run of `fs` from `w0`: it is
empty, or a login-start frame of `fs` issued it. -/
def tokenOrigin (env : Env) (w0 : World) (fs : List RawPacket) (t : List Byte) : Prop :=
  t = [] ∨ ∃ pre f post w2, fs = pre ++ f :: post ∧
    runFrames env pre w0 = .returned w2 ∧ issuesToken env f w2 t

/-! ## `protocol/responses.go`: the remaining writers -/

namespace Response

/-- `WriteFloat(f float32)`: `binary.Write` writes the four bytes of the IEEE-754 bit pattern
of `f`; the value is given by that bit pattern. -/
def WriteFloat (r : Response) (bits : Nat) : Response := ⟨r.data ++ bigEndian 4 (bits % 2 ^ 32)⟩

/-- `WriteDouble(d float64)`: the eight bytes of the IEEE-754 bit pattern of `d`. -/
def WriteDouble (r : Response) (bits : Nat) : Response := ⟨r.data ++ bigEndian 8 (bits % 2 ^ 64)⟩

/-- `WriteUUID`: `WriteLong(uuid.MostSig)` then `WriteLong(uuid.LeastSig)`. -/
def WriteUUID (r : Response) (uuid : UUID) : Response :=
  (r.WriteLong uuid.MostSig).WriteLong uuid.LeastSig

end Response

mutual
/-- A Go value as `WriteStructure` sees it through `object.(type)` and `reflect`: one
constructor per case of the type switch, structs with their fields in declaration order,
pointers, and `other` for a value of any other type (a 16-bit integer, a map, a slice that is
not `[]byte`, a named scalar type, ...). Floats are given by their IEEE-754 bit patterns; a
`world.Location` by the bit patterns of `float64(loc.X)`, `float64(loc.Y)`, `float64(loc.Z)`,
`loc.Yaw` and `loc.Pitch`. -/
inductive GoValue where
  | int8 (v : Int)
  | uint8 (v : Nat)
  | bool (v : Bool)
  | int (v : Int)
  | int32 (v : Int)
  | int64 (v : Int)
  | uint32 (v : Nat)
  | float32 (bits : Nat)
  | float64 (bits : Nat)
  | string (v : GoString)
  | bytes (v : List Byte)
  | location (x y z yaw pitch : Nat)
  | uuid (v : UUID)
  | struct (fields : GoFields)
  | nilPointer
  | pointer (target : GoValue)
  | other
/-- The fields of a struct in declaration order; `exported` tells whether the field name is
exported. -/
inductive GoFields where
  | nil
  | cons (exported : Bool) (value : GoValue) (rest : GoFields)
end

/-- `f.Kind() == reflect.Struct`. -/
def GoValue.isStruct : GoValue → Bool
  | .struct _ => true
  | _ => false

mutual
/-- `WriteStructure`; `none` is a panic. The type switch writes the directly supported types.
In the `default` branch `reflect.ValueOf(object)` can always be interfaced, and `NumField`
panics unless the value is a struct. `sameAsZero f` is the comparison
`reflect.Zero(f.Type()) == f`, which compares two `reflect.Value` handles (type, data pointer
and flags), not the contents they stand for. -/
def WriteStructure (sameAsZero : GoValue → Bool) (r : Response) : GoValue → Option Response
  | .int8 v => some (r.WriteByte v)
  | .uint8 v => some (r.WriteUnsignedByte v)
  | .bool v => some (r.WriteBoolean v)
  | .int v => some (r.WriteInt v)
  | .int32 v => some (r.WriteVarint v)
  | .int64 v => some (r.WriteLong v)
  | .uint32 v => some (r.WriteUVarint v)
  | .float32 bits => some (r.WriteFloat bits)
  | .float64 bits => some (r.WriteDouble bits)
  | .string v => some (r.WriteString v)
  | .bytes v => some (r.WriteByteArray v)
  | .location x y z yaw pitch =>
    some (((((r.WriteDouble x).WriteDouble y).WriteDouble z).WriteFloat yaw).WriteFloat pitch)
  | .uuid v => some (r.WriteUUID v)
  | .struct fields => writeFields sameAsZero r fields
  | .nilPointer => none
  | .pointer _ => none
  | .other => none
/-- The loop over the fields of a struct in the `default` branch of `WriteStructure`: a nil
pointer field is skipped and a non-nil one is replaced by what it points to; a struct for which
the zero comparison holds is skipped; `f.Interface()` panics for an unexported field; then
`WriteStructure` is called on the field. -/
def writeFields (sameAsZero : GoValue → Bool) (r : Response) : GoFields → Option Response
  | .nil => some r
  | .cons _ .nilPointer rest => writeFields sameAsZero r rest
  | .cons exported (.pointer target) rest =>
    if target.isStruct && sameAsZero target then writeFields sameAsZero r rest
    else if exported = false then none
    else
      match WriteStructure sameAsZero r target with
      | none => none
      | some r1 => writeFields sameAsZero r1 rest
  | .cons exported f rest =>
    if f.isStruct && sameAsZero f then writeFields sameAsZero r rest
    else if exported = false then none
    else
      match WriteStructure sameAsZero r f with
      | none => none
      | some r1 => writeFields sameAsZero r1 rest
end

mutual
/-- Reference definition, in the words of the specification: a value of a directly supported
kind is written as its dedicated writer writes it, and a composite value as the concatenation
of the encodings of its fields in declaration order, a nil pointer field contributing nothing
and a non-nil pointer field the encoding of what it points to. -/
def structureBytes : GoValue → List Byte
  | .int8 v => (NewResponse.WriteByte v).data
  | .uint8 v => (NewResponse.WriteUnsignedByte v).data
  | .bool v => (NewResponse.WriteBoolean v).data
  | .int v => (NewResponse.WriteInt v).data
  | .int32 v => (NewResponse.WriteVarint v).data
  | .int64 v => (NewResponse.WriteLong v).data
  | .uint32 v => (NewResponse.WriteUVarint v).data
  | .float32 bits => (NewResponse.WriteFloat bits).data
  | .float64 bits => (NewResponse.WriteDouble bits).data
  | .string v => (NewResponse.WriteString v).data
  | .bytes v => (NewResponse.WriteByteArray v).data
  | .location x y z yaw pitch =>
    (((((NewResponse.WriteDouble x).WriteDouble y).WriteDouble z).WriteFloat yaw).WriteFloat
      pitch).data
  | .uuid v => (NewResponse.WriteUUID v).data
  | .struct fields => fieldsBytes fields
  | .nilPointer => []
  | .pointer _ => []
  | .other => []
/-- Reference definition for the fields of a composite value. -/
def fieldsBytes : GoFields → List Byte
  | .nil => []
  | .cons _ .nilPointer rest => fieldsBytes rest
  | .cons _ (.pointer target) rest => structureBytes target ++ fieldsBytes rest
  | .cons _ f rest => structureBytes f ++ fieldsBytes rest
end

mutual
/-- A value built from supported kinds: a directly supported kind, or a struct whose fields
are exported and are each such a value, a nil pointer, or a pointer to such a value. -/
def GoValue.supported : GoValue → Bool
  | .struct fields => fields.supported
  | .nilPointer => false
  | .pointer _ => false
  | .other => false
  | _ => true
/-- Every field is exported and is a supported value, a nil pointer or a pointer to a
supported value. -/
def GoFields.supported : GoFields → Bool
  | .nil => true
  | .cons exported .nilPointer rest => exported && rest.supported
  | .cons exported (.pointer target) rest => exported && target.supported && rest.supported
  | .cons exported f rest => exported && f.supported && rest.supported
end

/-- One call of a `Write*` method of `Response`, with its argument. For `WriteJSON` the argument
is what `json.Marshal` returned for the object (`none` for its error). -/
inductive WriteCall where
  | boolean (b : Bool)
  | byte (b : Int)
  | unsignedByte (b : Nat)
  | uvarint (i : Nat)
  | varint (i : Int)
  | int (i : Int)
  | long (l : Int)
  | float (bits : Nat)
  | double (bits : Nat)
  | uuid (u : UUID)
  | byteArray (b : List Byte)
  | string (s : GoString)
  | json (marshalled : Option (List Byte))
  | struct (v : GoValue)

/-- Makes the call on the response; `none` is a panic. -/
def WriteCall.run (sameAsZero : GoValue → Bool) (r : Response) : WriteCall → Option Response
  | .boolean b => some (r.WriteBoolean b)
  | .byte b => some (r.WriteByte b)
  | .unsignedByte b => some (r.WriteUnsignedByte b)
  | .uvarint i => some (r.WriteUVarint i)
  | .varint i => some (r.WriteVarint i)
  | .int i => some (r.WriteInt i)
  | .long l => some (r.WriteLong l)
  | .float bits => some (r.WriteFloat bits)
  | .double bits => some (r.WriteDouble bits)
  | .uuid u => some (r.WriteUUID u)
  | .byteArray b => some (r.WriteByteArray b)
  | .string s => some (r.WriteString s)
  | .json marshalled => r.WriteJSON (fun (_ : Unit) => marshalled) ()
  | .struct v => WriteStructure sameAsZero r v

/-- Makes the calls one after the other on the same response; a panic ends the sequence. -/
def runCalls (sameAsZero : GoValue → Bool) : List WriteCall → Response → Option Response
  | [], r => some r
  | c :: cs, r =>
    match c.run sameAsZero r with
    | none => none
    | some r1 => runCalls sameAsZero cs r1

/-- The encoding of one call according to the wire table of the specification: what the call
contributes to a payload (`none` when the call panics). -/
def WriteCall.encoding (sameAsZero : GoValue → Bool) : WriteCall → Option (List Byte)
  | .boolean b => some [if b then 1 else 0]
  | .byte b => some [toByte (b % 256).toNat]
  | .unsignedByte b => some [toByte b]
  | .uvarint i => some (Uvarint i)
  | .varint i => some (Varint i)
  | .int i => some (bigEndian 4 (i % 2 ^ 32).toNat)
  | .long l => some (bigEndian 8 (l % 2 ^ 64).toNat)
  | .float bits => some (bigEndian 4 (bits % 2 ^ 32))
  | .double bits => some (bigEndian 8 (bits % 2 ^ 64))
  | .uuid u => some (bigEndian 8 (u.MostSig % 2 ^ 64).toNat ++ bigEndian 8 (u.LeastSig % 2 ^ 64).toNat)
  | .byteArray b => some (Uvarint b.length ++ b)
  | .string s => some (Uvarint s.length ++ s)
  | .json none => none
  | .json (some j) => some (Uvarint j.length ++ j)
  | .struct v =>
    match WriteStructure sameAsZero NewResponse v with
    | none => none
    | some r => some r.data

/-- Concatenation of the encodings of the calls, in call order (`none` when one panics). -/
def encodings (sameAsZero : GoValue → Bool) : List WriteCall → Option (List Byte)
  | [] => some []
  | c :: cs =>
    match c.encoding sameAsZero, encodings sameAsZero cs with
    | some e, some es => some (e ++ es)
    | _, _ => none

/-- Dispatch through the handler set stored on the connection (`sender.PacketHandler`). -/
def callOwnHandler (env : Env) (packet : RawPacket) (w : World) : Outcome :=
  match w.conn.PacketHandler with
  | some handler => handler.callHandler env packet w
  | none => .returned w

/-- The demo server with an identity service that rejects every user. -/
def noAuthEnv : Env := { demoEnv with Auth := fun _ _ _ => none }

/-- A struct with an exported `int8` field, a nil pointer field and a pointer to a `uint32`
(as a directly supported type). -/
def demoStruct : GoValue :=
  .struct (.cons true (.int8 (-1)) (.cons true .nilPointer (.cons true (.pointer (.uint32 300))
    .nil)))

/-- Encryption-response frame carrying a five-byte shared secret and the token `[0, 7, 7, 7]`. -/
def shortSecretFrame : RawPacket := ⟨1, [5, 1, 2, 3, 4, 5] ++ [4, 0, 7, 7, 7]⟩

/-- The response `r` with the contents of `r1` written after its own. -/
def Response.after (r r1 : Response) : Response := ⟨r.data ++ r1.data⟩

/-! ## What the streams do to the bytes -/

/-- Bytes obtained from a source while the transport delivers `wire`: a cipher layer applies
the transformation `dec key` of its decrypting CFB8 stream (`encrypt.NewCFB8Decrypt`, outside
the embedded files) to what the stream beneath it yields. -/
def Stream.read (dec : List Byte → List Byte → List Byte) (wire : List Byte) :
    Stream → List Byte
  | .transport => wire
  | .cipher key inner => dec key (inner.read dec wire)

/-- Bytes that reach the transport when `out` is written to an output stream: a cipher layer
applies the transformation `enc key` of its encrypting CFB8 stream (`encrypt.NewCFB8Encrypt`)
and hands the result to the stream beneath it. -/
def Stream.write (enc : List Byte → List Byte → List Byte) (out : List Byte) :
    Stream → List Byte
  | .transport => out
  | .cipher key inner => inner.write enc (enc key out)

/-- Bytes a consumer of the reader gets while the transport delivers `wire`: first the bytes
the reader has buffered already, unchanged, then what its source yields. -/
def ByteReader.deliver (dec : List Byte → List Byte → List Byte) (wire : List Byte)
    (rd : ByteReader) : List Byte :=
  rd.buffered ++ rd.R.read dec wire

/-- A stand-in for a stream cipher: adds the length of the key to every byte. -/
def demoCipher (key : List Byte) (bytes : List Byte) : List Byte :=
  bytes.map (fun b => b + toByte key.length)

/-- The connection of `loginWorld` with two bytes buffered unread in its reader. -/
def bufferedLoginWorld : World :=
  { loginWorld with conn := { loginWorld.conn with Reader := ⟨[250, 251], Stream.transport⟩ } }

/-! ## Effect of each handler on the phase -/

theorem AssignHandler_phase (env : Env) (c : Connection) :
    (AssignHandler env c).ConnectionState = c.ConnectionState := by
  unfold AssignHandler
  split <;> rfl

theorem handshakeHandler_phase (env : Env) (p : RawPacket) (w : World) :
    (handshakeHandler env p w).world.conn.ConnectionState = w.conn.ConnectionState ∨
    (handshakeHandler env p w).world.conn.ConnectionState = LoginState := by
  generalize ho : handshakeHandler env p w = o
  unfold handshakeHandler at ho
  repeat' split at ho
  all_goals subst ho
  all_goals simp [Outcome.world, World.Write, AssignHandler_phase]

theorem pingPongHandler_conn (env : Env) (p : RawPacket) (w : World) :
    (pingPongHandler env p w).world.conn = w.conn := by
  unfold pingPongHandler
  split <;> simp [Outcome.world, World.Write]

theorem loginStartHandler_phase (env : Env) (p : RawPacket) (w : World) :
    (loginStartHandler env p w).world.conn.ConnectionState = w.conn.ConnectionState := by
  unfold loginStartHandler
  repeat' split
  all_goals simp [Outcome.world, World.Write, World.Disconnect]

theorem encryptionResponseHandler_phase (env : Env) (p : RawPacket) (w : World) :
    (encryptionResponseHandler env p w).world.conn.ConnectionState = w.conn.ConnectionState ∨
    (encryptionResponseHandler env p w).world.conn.ConnectionState = PlayState := by
  generalize ho : encryptionResponseHandler env p w = o
  unfold encryptionResponseHandler at ho
  repeat' split at ho
  all_goals try (dsimp only at ho; repeat' split at ho)
  all_goals subst ho
  all_goals simp [Outcome.world, World.Write, World.Disconnect, World.record, AssignHandler_phase]

/-! ## Dispatch -/

theorem lookup_mem {α : Type} (k : Nat) (h : α) :
    ∀ l : List (Nat × α), l.lookup k = some h → (k, h) ∈ l
  | [], hl => by simp [List.lookup] at hl
  | (k1, h1) :: l, hl => by
    by_cases hk : k = k1
    · subst hk
      simp [List.lookup] at hl
      simp [hl]
    · have hb : (k == k1) = false := by simpa using hk
      simp only [List.lookup, hb] at hl
      exact List.mem_cons_of_mem _ (lookup_mem k h l hl)

theorem callHandler_cases (handler : stateMapHandler) (env : Env) (packet : RawPacket)
    (w : World) :
    (handler.handlers.lookup packet.ID = none ∧ handler.callHandler env packet w = .returned w) ∨
    ∃ h, (packet.ID, h) ∈ handler.handlers ∧
      handler.callHandler env packet w = h.run env packet w := by
  unfold stateMapHandler.callHandler
  cases hl : handler.handlers.lookup packet.ID with
  | none => exact Or.inl ⟨rfl, rfl⟩
  | some h => exact Or.inr ⟨h, lookup_mem _ _ _ hl, rfl⟩

/-- `CallHandler` either leaves the world as it is or runs one of the four handlers, in the
phase and for the frame id it is registered under. -/
theorem CallHandler_cases (env : Env) (p : RawPacket) (w : World) :
    CallHandler env p w = .returned w ∨
    (w.conn.ConnectionState = HandshakeState ∧ p.ID = env.HandshakePacketId ∧
      CallHandler env p w = handshakeHandler env p w) ∨
    (w.conn.ConnectionState = HandshakeState ∧ p.ID = env.PingPacketId ∧
      CallHandler env p w = pingPongHandler env p w) ∨
    (w.conn.ConnectionState = LoginState ∧ p.ID = env.LoginStartPacketId ∧
      CallHandler env p w = loginStartHandler env p w) ∨
    (w.conn.ConnectionState = LoginState ∧ p.ID = env.EncryptionResponsePacketId ∧
      CallHandler env p w = encryptionResponseHandler env p w) := by
  unfold CallHandler
  cases hs : w.conn.ConnectionState with
  | HandshakeState =>
    simp only [handlers]
    rcases callHandler_cases ⟨[(env.HandshakePacketId, Handler.handshakeHandler),
      (env.PingPacketId, Handler.pingPongHandler)]⟩ env p w with ⟨_, he⟩ | ⟨h, hm, he⟩
    · exact Or.inl he
    · simp only [List.mem_cons, Prod.mk.injEq, List.mem_nil_iff, or_false] at hm
      rcases hm with ⟨hid, rfl⟩ | ⟨hid, rfl⟩
      · exact Or.inr (Or.inl ⟨trivial, hid, he⟩)
      · exact Or.inr (Or.inr (Or.inl ⟨trivial, hid, he⟩))
  | LoginState =>
    simp only [handlers]
    rcases callHandler_cases ⟨[(env.LoginStartPacketId, Handler.loginStartHandler),
      (env.EncryptionResponsePacketId, Handler.encryptionResponseHandler)]⟩ env p w with
      ⟨_, he⟩ | ⟨h, hm, he⟩
    · exact Or.inl he
    · simp only [List.mem_cons, Prod.mk.injEq, List.mem_nil_iff, or_false] at hm
      rcases hm with ⟨hid, rfl⟩ | ⟨hid, rfl⟩
      · exact Or.inr (Or.inr (Or.inr (Or.inl ⟨trivial, hid, he⟩)))
      · exact Or.inr (Or.inr (Or.inr (Or.inr ⟨trivial, hid, he⟩)))
  | PlayState =>
    exact Or.inl rfl

/-! ## C1: the phase never moves backwards -/

/-- C1: dispatching any frame through `CallHandler` on any connection, whatever the server and
the collaborators answer and whether the handler returns or panics, leaves the connection in a
phase that is not earlier (Handshake < Login < Play) than the phase it was in before. -/
theorem CallHandler_phase_monotone (env : Env) (packet : RawPacket) (w : World) :
    w.conn.ConnectionState.rank ≤ (CallHandler env packet w).world.conn.ConnectionState.rank := by
  rcases CallHandler_cases env packet w with he | ⟨hs, _, he⟩ | ⟨hs, _, he⟩ | ⟨hs, _, he⟩ |
    ⟨hs, _, he⟩
  · simp [he, Outcome.world]
  · simp [hs, ConnectionState.rank]
  · simp [hs, ConnectionState.rank]
  · rw [he, loginStartHandler_phase]
  · rw [he]
    rcases encryptionResponseHandler_phase env packet w with h1 | h1
    · rw [h1]
    · rw [h1, hs]; decide

/-! ## C2: reaching the Play phase -/

theorem runFrames_append (env : Env) (a b : List RawPacket) (w : World) :
    runFrames env (a ++ b) w =
      match runFrames env a w with
      | .returned w1 => runFrames env b w1
      | .panicked w1 => .panicked w1 := by
  induction a generalizing w with
  | nil => rfl
  | cons x xs ih =>
    simp only [List.cons_append, runFrames]
    cases CallHandler env x w with
    | returned w1 => exact ih w1
    | panicked w1 => rfl

theorem runFrames_snoc_returned (env : Env) (fs : List RawPacket) (x : RawPacket)
    (w0 w1 : World) (h : runFrames env (fs ++ [x]) w0 = .returned w1) :
    ∃ w, runFrames env fs w0 = .returned w ∧ CallHandler env x w = .returned w1 := by
  rw [runFrames_append] at h
  cases hr : runFrames env fs w0 with
  | returned w =>
    rw [hr] at h
    refine ⟨w, rfl, ?_⟩
    simp only [runFrames] at h
    cases hc : CallHandler env x w with
    | returned w2 => rw [hc] at h; exact h
    | panicked w2 => rw [hc] at h; cases h
  | panicked w => rw [hr] at h; cases h

theorem handshakeHandler_token (env : Env) (p : RawPacket) (w : World) :
    (handshakeHandler env p w).world.conn.VerifyToken = w.conn.VerifyToken := by
  generalize ho : handshakeHandler env p w = o
  unfold handshakeHandler at ho
  repeat' split at ho
  all_goals subst ho
  all_goals simp [Outcome.world, World.Write, AssignHandler, handlers]

theorem loginStartHandler_token (env : Env) (p : RawPacket) (w w1 : World)
    (hs : w.conn.ConnectionState = LoginState) (hid : p.ID = env.LoginStartPacketId)
    (h : loginStartHandler env p w = .returned w1) :
    w1.conn.VerifyToken = w.conn.VerifyToken ∨ issuesToken env p w w1.conn.VerifyToken := by
  unfold loginStartHandler at h
  split at h
  · cases h
  · rename_i u rest hread
    dsimp only at h
    split at h
    · cases h; exact Or.inl rfl
    · split at h
      · cases h; exact Or.inl rfl
      · split at h
        · rename_i h1 h2 honline
          cases h
          exact Or.inr ⟨hs, hid, ⟨u, rest, hread⟩, by omega, honline, rfl⟩
        · cases h; exact Or.inl rfl

theorem encryptionResponseHandler_token (env : Env) (p : RawPacket) (w : World) :
    (encryptionResponseHandler env p w).world.conn.VerifyToken = w.conn.VerifyToken ∨
    (encryptionResponseHandler env p w).world.conn.VerifyToken = [] := by
  generalize ho : encryptionResponseHandler env p w = o
  unfold encryptionResponseHandler at ho
  repeat' split at ho
  all_goals try (dsimp only at ho; repeat' split at ho)
  all_goals subst ho
  all_goals simp [Outcome.world, World.Write, World.Disconnect, World.record, AssignHandler,
    handlers, EmtpyArray]

theorem encryptionResponseHandler_reaches_play (env : Env) (p : RawPacket) (w w1 : World)
    (hs : w.conn.ConnectionState = LoginState) (hid : p.ID = env.EncryptionResponsePacketId)
    (h : encryptionResponseHandler env p w = .returned w1)
    (hplay : w1.conn.ConnectionState = PlayState) :
    completesLogin env p w w.conn.VerifyToken := by
  unfold encryptionResponseHandler at h
  repeat' split at h
  all_goals try (dsimp only at h; repeat' split at h)
  all_goals try cases h
  all_goals try (simp [World.Disconnect, World.record, World.Write, hs] at hplay; done)
  rename_i encryptedSecret d1 hread1 _ sharedSecret hdec1 _ encryptedToken d2 hread2 _
    verifyToken hdec2 htoken hkey _ profile hauth _ reason hcan
  have htoken1 : verifyToken = w.conn.VerifyToken := Decidable.not_not.mp htoken
  have hkey1 : aesKeySize sharedSecret = true := by simpa using hkey
  subst htoken1
  exact ⟨hs, hid, encryptedSecret, d1, sharedSecret, encryptedToken, d2, profile, reason,
    hread1, hdec1, hread2, hdec2, hkey1, hauth, hcan⟩

/-- One dispatched frame: the stored token is kept, cleared, or issued by this frame. -/
theorem CallHandler_token (env : Env) (x : RawPacket) (w w1 : World)
    (h : CallHandler env x w = .returned w1) :
    w1.conn.VerifyToken = w.conn.VerifyToken ∨ w1.conn.VerifyToken = [] ∨
      issuesToken env x w w1.conn.VerifyToken := by
  rcases CallHandler_cases env x w with he | ⟨hs, hid, he⟩ | ⟨hs, hid, he⟩ | ⟨hs, hid, he⟩ |
    ⟨hs, hid, he⟩
  · rw [he] at h; cases h; exact Or.inl rfl
  · have := handshakeHandler_token env x w
    rw [← he, h] at this
    exact Or.inl this
  · have := pingPongHandler_conn env x w
    rw [← he, h] at this
    exact Or.inl (congrArg Connection.VerifyToken this)
  · rw [he] at h
    rcases loginStartHandler_token env x w w1 hs hid h with h1 | h1
    · exact Or.inl h1
    · exact Or.inr (Or.inr h1)
  · have := encryptionResponseHandler_token env x w
    rw [← he, h] at this
    rcases this with h1 | h1
    · exact Or.inl h1
    · exact Or.inr (Or.inl h1)

/-- One dispatched frame moves a connection into the Play phase only as an encryption
response that passes every check against the token stored at that moment. -/
theorem CallHandler_reaches_play (env : Env) (x : RawPacket) (w w1 : World)
    (h : CallHandler env x w = .returned w1)
    (hbefore : w.conn.ConnectionState ≠ PlayState)
    (hplay : w1.conn.ConnectionState = PlayState) :
    completesLogin env x w w.conn.VerifyToken := by
  rcases CallHandler_cases env x w with he | ⟨hs, hid, he⟩ | ⟨hs, hid, he⟩ | ⟨hs, hid, he⟩ |
    ⟨hs, hid, he⟩
  · rw [he] at h; cases h; exact absurd hplay hbefore
  · have := handshakeHandler_phase env x w
    rw [← he, h] at this
    simp only [Outcome.world, hplay, hs] at this
    rcases this with h1 | h1 <;> cases h1
  · have := pingPongHandler_conn env x w
    rw [← he, h] at this
    simp only [Outcome.world] at this
    rw [this] at hplay
    exact absurd hplay hbefore
  · have := loginStartHandler_phase env x w
    rw [← he, h] at this
    simp only [Outcome.world] at this
    rw [this] at hplay
    exact absurd hplay hbefore
  · rw [he] at h
    exact encryptionResponseHandler_reaches_play env x w w1 hs hid h hplay

theorem tokenOrigin_snoc (env : Env) (w0 : World) (fs : List RawPacket) (x : RawPacket)
    (t : List Byte) (h : tokenOrigin env w0 fs t) : tokenOrigin env w0 (fs ++ [x]) t := by
  rcases h with h | ⟨pre, f, post, w2, hfs, hrun, hissue⟩
  · exact Or.inl h
  · exact Or.inr ⟨pre, f, post ++ [x], w2, by simp [hfs], hrun, hissue⟩

/-- Invariant of a run that starts with an empty stored token. -/
theorem runFrames_invariant (env : Env) (w0 : World) (htoken : w0.conn.VerifyToken = [])
    (hstart : w0.conn.ConnectionState ≠ PlayState) (fs : List RawPacket) :
    ∀ w, runFrames env fs w0 = .returned w →
      tokenOrigin env w0 fs w.conn.VerifyToken ∧
      (w.conn.ConnectionState = PlayState →
        ∃ pre g post w1, fs = pre ++ g :: post ∧ runFrames env pre w0 = .returned w1 ∧
          completesLogin env g w1 w1.conn.VerifyToken ∧
          tokenOrigin env w0 pre w1.conn.VerifyToken) := by
  induction fs using List.reverseRecOn with
  | nil =>
    intro w hrun
    simp only [runFrames, Outcome.returned.injEq] at hrun
    subst hrun
    exact ⟨Or.inl htoken, fun h => absurd h hstart⟩
  | append_singleton fs x ih =>
    intro w1 hrun
    obtain ⟨w, hrunfs, hcall⟩ := runFrames_snoc_returned env fs x w0 w1 hrun
    obtain ⟨horigin, hplayfs⟩ := ih w hrunfs
    refine ⟨?_, ?_⟩
    · rcases CallHandler_token env x w w1 hcall with h | h | h
      · rw [h]; exact tokenOrigin_snoc env w0 fs x _ horigin
      · exact Or.inl h
      · exact Or.inr ⟨fs, x, [], w, rfl, hrunfs, h⟩
    · intro hplay
      by_cases hbefore : w.conn.ConnectionState = PlayState
      · obtain ⟨pre, g, post, w2, hfs, hpre, hg, ho⟩ := hplayfs hbefore
        exact ⟨pre, g, post ++ [x], w2, by simp [hfs], hpre, hg, ho⟩
      · exact ⟨fs, x, [], w, rfl, hrunfs,
          CallHandler_reaches_play env x w w1 hcall hbefore hplay, horigin⟩

/-- C2, the code at the failing input: a fresh connection (Handshake phase, no verify token
stored) receives a handshake frame requesting login and then an encryption-response frame
whose token decrypts to the empty byte string. The comparison with the never-issued stored
token passes and identity verification is called with the empty pending username. On the demo
server, whose identity service answers with a profile, the run ends in the Play phase although
no token was ever generated and the run contains no login-start frame that issued a token
followed by a matching encryption response. On the server whose identity service refuses, the
run ends in the Login phase with the reason of a failed verification, not that of a wrong
token. -/
theorem play_reached_without_login_start :
    freshWorld.conn.ConnectionState = HandshakeState ∧
    freshWorld.conn.VerifyToken = [] ∧
    runFrames demoEnv [handshakeFrame 2, encryptionResponseFrame []] freshWorld =
      .returned (runFrames demoEnv [handshakeFrame 2, encryptionResponseFrame []] freshWorld).world ∧
    (runFrames demoEnv [handshakeFrame 2, encryptionResponseFrame []]
      freshWorld).world.conn.ConnectionState = PlayState ∧
    (runFrames demoEnv [handshakeFrame 2, encryptionResponseFrame []] freshWorld).world.drawn = 0 ∧
    Event.auth [] demoSecret demoEnv.GetPublicKey ∈
      (runFrames demoEnv [handshakeFrame 2, encryptionResponseFrame []] freshWorld).world.events ∧
    runFrames noAuthEnv [handshakeFrame 2, encryptionResponseFrame []] freshWorld =
      .returned (runFrames noAuthEnv [handshakeFrame 2, encryptionResponseFrame []]
        freshWorld).world ∧
    (runFrames noAuthEnv [handshakeFrame 2, encryptionResponseFrame []]
      freshWorld).world.conn.ConnectionState = LoginState ∧
    disconnectReasons (runFrames noAuthEnv [handshakeFrame 2, encryptionResponseFrame []]
      freshWorld).world.events = [str "Could not connect to Mojang servers."] ∧
    ¬ fullLoginSequence demoEnv [handshakeFrame 2, encryptionResponseFrame []] freshWorld := by
  refine ⟨by decide, by decide, by decide, by decide, by decide, by decide, by decide,
    by decide, by decide, ?_⟩
  rintro ⟨pre, f, mid, g, post, w2, w1, t, hfs, hrun2, hissue, _, _⟩
  cases pre with
  | nil =>
    simp only [runFrames, Outcome.returned.injEq] at hrun2
    subst hrun2
    exact absurd hissue.1 (by decide)
  | cons a pre1 =>
    have hlen := congrArg List.length hfs
    simp at hlen
    omega

/-- What every run that reaches the Play phase contains (the part of the login sequence the
code does enforce): if a run of frames through `CallHandler`, started in the Handshake phase
with no verify token stored, returns with the connection in the Play phase, then the run
contains an encryption-response frame that was handled in the Login phase and whose decrypted
token equals the verify token stored on the connection at that moment, with a shared secret of
valid AES key size, identity verification and the admission check all succeeding; and whenever
that stored token is not empty, it was issued by an earlier login-start frame of the run that
was handled with the declared protocol version equal to the server's. -/
theorem play_requires_verified_response (env : Env) (fs : List RawPacket) (w0 w : World)
    (hstart : w0.conn.ConnectionState = HandshakeState)
    (htoken : w0.conn.VerifyToken = [])
    (hrun : runFrames env fs w0 = .returned w)
    (hplay : w.conn.ConnectionState = PlayState) :
    ∃ pre g post w1, fs = pre ++ g :: post ∧ runFrames env pre w0 = .returned w1 ∧
      completesLogin env g w1 w1.conn.VerifyToken ∧
      (w1.conn.VerifyToken ≠ [] →
        ∃ pre1 f mid w2, pre = pre1 ++ f :: mid ∧ runFrames env pre1 w0 = .returned w2 ∧
          issuesToken env f w2 w1.conn.VerifyToken) := by
  have hne : w0.conn.ConnectionState ≠ PlayState := by rw [hstart]; decide
  obtain ⟨pre, g, post, w1, hfs, hpre, hg, horigin⟩ :=
    (runFrames_invariant env w0 htoken hne fs w hrun).2 hplay
  refine ⟨pre, g, post, w1, hfs, hpre, hg, fun hnonempty => ?_⟩
  rcases horigin with h | h
  · exact absurd h hnonempty
  · exact h

/-- The full login sequence on the demo server: handshake, login start and the matching
encryption response. -/
theorem play_requires_verified_response_witness :
    ∃ pre g post w1,
      [handshakeFrame 2, loginStartFrame, encryptionResponseFrame [0, 7, 7, 7]]
        = pre ++ g :: post ∧
      runFrames demoEnv pre freshWorld = .returned w1 ∧
      completesLogin demoEnv g w1 w1.conn.VerifyToken ∧
      (w1.conn.VerifyToken ≠ [] →
        ∃ pre1 f mid w2, pre = pre1 ++ f :: mid ∧
          runFrames demoEnv pre1 freshWorld = .returned w2 ∧
          issuesToken demoEnv f w2 w1.conn.VerifyToken) :=
  play_requires_verified_response demoEnv
    [handshakeFrame 2, loginStartFrame, encryptionResponseFrame [0, 7, 7, 7]] freshWorld
    (runFrames demoEnv [handshakeFrame 2, loginStartFrame, encryptionResponseFrame [0, 7, 7, 7]]
      freshWorld).world
    (by decide) (by decide) (by decide) (by decide)

/-! ## Traces -/

theorem framesWritten_append (a b : List Event) :
    framesWritten (a ++ b) = framesWritten a ++ framesWritten b := by
  induction a with
  | nil => rfl
  | cons e es ih => cases e <;> simp [framesWritten, ih]

theorem disconnectReasons_append (a b : List Event) :
    disconnectReasons (a ++ b) = disconnectReasons a ++ disconnectReasons b := by
  induction a with
  | nil => rfl
  | cons e es ih => cases e <;> simp [disconnectReasons, ih]

/-! ## C3: verify-token mismatch -/

/-- C3: in the Login phase, an encryption-response frame whose two byte arrays decrypt and
whose decrypted verify token differs from the stored one makes `encryptionResponseHandler`
return after exactly one action, the disconnect with reason "Invalid verify token.": no frame
is written, identity verification is not called, both streams and every other field of the
connection are unchanged, and the phase is still Login. -/
theorem encryptionResponseHandler_token_mismatch (env : Env) (p : RawPacket) (w : World)
    (encryptedSecret d1 sharedSecret encryptedToken d2 verifyToken : List Byte)
    (hphase : w.conn.ConnectionState = LoginState)
    (hread1 : ReadByteArray p.Data = some (encryptedSecret, d1))
    (hdec1 : env.DecryptPKCS1v15 env.GetPrivateKey encryptedSecret = some sharedSecret)
    (hread2 : ReadByteArray d1 = some (encryptedToken, d2))
    (hdec2 : env.DecryptPKCS1v15 env.GetPrivateKey encryptedToken = some verifyToken)
    (hne : verifyToken ≠ w.conn.VerifyToken) :
    ∃ w1, encryptionResponseHandler env p w = .returned w1 ∧
      w1.events = w.events ++ [Event.disconnect w.conn.Writer (str "Invalid verify token.")] ∧
      framesWritten w1.events = framesWritten w.events ∧
      (∀ u s k, Event.auth u s k ∈ w1.events → Event.auth u s k ∈ w.events) ∧
      w1.conn = w.conn ∧ w1.conn.Reader = w.conn.Reader ∧ w1.conn.Writer = w.conn.Writer ∧
      w1.conn.ConnectionState = LoginState := by
  refine ⟨w.Disconnect (str "Invalid verify token."), ?_, rfl, ?_, ?_, rfl, rfl, rfl, hphase⟩
  · simp [encryptionResponseHandler, hread1, hdec1, hread2, hdec2, hne]
  · simp [World.Disconnect, framesWritten_append, framesWritten]
  · intro u s k hm
    simpa [World.Disconnect] using hm

/-- Witness for C3: the issued token is `[0, 7, 7, 7]`, the frame carries `[9, 9]`. -/
theorem encryptionResponseHandler_token_mismatch_witness :
    ∃ w1, encryptionResponseHandler demoEnv (encryptionResponseFrame [9, 9]) loginWorld
        = .returned w1 ∧
      w1.events = loginWorld.events ++
        [Event.disconnect loginWorld.conn.Writer (str "Invalid verify token.")] ∧
      framesWritten w1.events = framesWritten loginWorld.events ∧
      (∀ u s k, Event.auth u s k ∈ w1.events → Event.auth u s k ∈ loginWorld.events) ∧
      w1.conn = loginWorld.conn ∧ w1.conn.Reader = loginWorld.conn.Reader ∧
      w1.conn.Writer = loginWorld.conn.Writer ∧ w1.conn.ConnectionState = LoginState :=
  encryptionResponseHandler_token_mismatch demoEnv (encryptionResponseFrame [9, 9]) loginWorld
    demoSecret [2, 9, 9] demoSecret [9, 9] [] [9, 9] (by decide) (by decide) (by decide)
    (by decide) (by decide) (by decide)
/-! ## C4: the handshake frame -/

theorem Uvarint_mod (n : Nat) : Uvarint (n % 2 ^ 32) = Uvarint n := by
  unfold Uvarint
  rw [Nat.mod_mod]

theorem WriteByteArray_data (r : Response) (b : List Byte) :
    (r.WriteByteArray b).data = r.data ++ Uvarint b.length ++ b := by
  unfold Response.WriteByteArray Response.WriteUVarint
  rw [Uvarint_mod]

/-- C4: for a connection in the Handshake phase and a handshake frame whose payload reads as
declared version, address, port and next state, `handshakeHandler` stores the declared version
and then: for the status value writes exactly one frame, id `HandshakePacketId`, payload the
byte-array encoding of the JSON text of the descriptor (server version name and protocol,
max and online players, MOTD, favicon or the empty string without one), the phase unchanged;
for the login value moves the phase to Login and writes nothing; for any other value changes
nothing else and writes nothing. -/
theorem handshakeHandler_outcome (env : Env) (p : RawPacket) (w : World)
    (version port nextState : Nat) (address : GoString) (d1 d2 d3 d4 : List Byte)
    (hphase : w.conn.ConnectionState = HandshakeState)
    (hversion : ReadUnsignedVarint p.Data = some (version, d1))
    (haddress : ReadString d1 = some (address, d2))
    (hport : ReadUnsignedShort d2 = some (port, d3))
    (hnext : ReadUnsignedVarint d3 = some (nextState, d4)) :
    (nextState = env.HandshakeStatusNextState →
      ∀ j, env.jsonMarshal
          { Ver := { Name := env.GetServerVersion.Name,
                     Protocol := env.GetServerVersion.ProtocolVersion },
            Pl := { Max := env.GetMaxPlayers, Online := env.GetOnlinePlayersCount },
            Desc := { Text := env.GetMotd },
            Fav := if env.HasFavicon then env.GetFavicon else [] } = some j →
        handshakeHandler env p w = .returned
          { conn := { w.conn with ProtocolVersion := version },
            events := w.events ++
              [Event.write w.conn.Writer ⟨env.HandshakePacketId, Uvarint j.length ++ j⟩],
            drawn := w.drawn }) ∧
    (nextState ≠ env.HandshakeStatusNextState → nextState = env.HandshakeLoginNextState →
      handshakeHandler env p w = .returned
        { w with conn := { w.conn with ProtocolVersion := version, ConnectionState := LoginState,
                                       PacketHandler := handlers env LoginState } }) ∧
    (nextState ≠ env.HandshakeStatusNextState → nextState ≠ env.HandshakeLoginNextState →
      handshakeHandler env p w = .returned
        { w with conn := { w.conn with ProtocolVersion := version } }) ∧
    ((handshakeHandler env p w).world.conn.ProtocolVersion = version) ∧
    (nextState ≠ env.HandshakeLoginNextState →
      (handshakeHandler env p w).world.conn.ConnectionState = HandshakeState) := by
  have hlist : statusList env =
      { Ver := { Name := env.GetServerVersion.Name,
                 Protocol := env.GetServerVersion.ProtocolVersion },
        Pl := { Max := env.GetMaxPlayers, Online := env.GetOnlinePlayersCount },
        Desc := { Text := env.GetMotd },
        Fav := if env.HasFavicon then env.GetFavicon else [] } := by
    unfold statusList
    cases env.HasFavicon <;> simp [str]
  refine ⟨?_, ?_, ?_, ?_, ?_⟩
  · intro hs j hj
    rw [← hlist] at hj
    simp [handshakeHandler, hversion, haddress, hport, hnext, hs, Response.WriteJSON, hj,
      World.Write, Response.ToRawPacket, WriteByteArray_data, NewResponse]
  · intro hs hl
    subst hl
    simp [handshakeHandler, hversion, haddress, hport, hnext, hs, AssignHandler, handlers]
  · intro hs hl
    simp [handshakeHandler, hversion, haddress, hport, hnext, hs, hl]
  · simp only [handshakeHandler, hversion, haddress, hport, hnext]
    repeat' split
    all_goals simp [Outcome.world, World.Write, AssignHandler, handlers]
  · intro hl
    simp only [handshakeHandler, hversion, haddress, hport, hnext]
    repeat' split
    all_goals simp_all [Outcome.world, World.Write, AssignHandler, handlers]

/-- Witness for C4: a status request and a login request on a fresh connection. -/
theorem handshakeHandler_outcome_witness :
    handshakeHandler demoEnv (handshakeFrame 1) freshWorld = .returned
      { conn := { freshConn with ProtocolVersion := 340 },
        events := [Event.write Stream.transport
          ⟨0, Uvarint 21 ++ (str "1.12.2" ++ str "A goelan server" ++ [])⟩],
        drawn := 0 } ∧
    handshakeHandler demoEnv (handshakeFrame 2) freshWorld = .returned
      { conn := { freshConn with ProtocolVersion := 340, ConnectionState := LoginState,
                                 PacketHandler := handlers demoEnv LoginState },
        events := [], drawn := 0 } :=
  ⟨((handshakeHandler_outcome demoEnv (handshakeFrame 1) freshWorld 340 25565 1 (str "localhost")
      ((handshakeFrame 1).Data.drop 2) ((handshakeFrame 1).Data.drop 12)
      ((handshakeFrame 1).Data.drop 14) [] (by decide) (by decide) (by decide) (by decide)
      (by decide)).1 (by decide) (str "1.12.2" ++ str "A goelan server" ++ []) (by decide)).trans
      (by decide),
   ((handshakeHandler_outcome demoEnv (handshakeFrame 2) freshWorld 340 25565 2 (str "localhost")
      ((handshakeFrame 2).Data.drop 2) ((handshakeFrame 2).Data.drop 12)
      ((handshakeFrame 2).Data.drop 14) [] (by decide) (by decide) (by decide) (by decide)
      (by decide)).2.1 (by decide) (by decide)).trans (by decide)⟩
/-! ## C5: frames without a handler -/

/-- C5: a frame whose id has no handler registered for the current phase of the connection is
ignored by `CallHandler`: the call returns (no panic) with the world exactly as it was, so no
frame is written, nothing is disconnected and no field of the connection changes. Every frame
received in the Play phase is such a frame, and so is, in the Handshake phase, every frame
whose id is neither `HandshakePacketId` nor `PingPacketId`, whatever is registered under the
other phases. -/
theorem CallHandler_ignores_unregistered (env : Env) (p : RawPacket) (w : World) :
    (hasHandler env w.conn.ConnectionState p.ID = false → CallHandler env p w = .returned w) ∧
    (w.conn.ConnectionState = PlayState → hasHandler env w.conn.ConnectionState p.ID = false) ∧
    (w.conn.ConnectionState = HandshakeState → p.ID ≠ env.HandshakePacketId →
      p.ID ≠ env.PingPacketId → hasHandler env w.conn.ConnectionState p.ID = false) ∧
    (w.conn.ConnectionState = LoginState → p.ID ≠ env.LoginStartPacketId →
      p.ID ≠ env.EncryptionResponsePacketId →
      hasHandler env w.conn.ConnectionState p.ID = false) := by
  refine ⟨?_, ?_, ?_, ?_⟩
  · intro h
    unfold hasHandler at h
    unfold CallHandler
    cases hh : handlers env w.conn.ConnectionState with
    | none => rfl
    | some handler =>
      rw [hh] at h
      unfold stateMapHandler.callHandler
      cases hl : handler.handlers.lookup p.ID with
      | none => simp [hl]
      | some h1 => simp [hl] at h
  · intro hs
    rw [hs]
    rfl
  · intro hs h1 h2
    have b1 : (p.ID == env.HandshakePacketId) = false := by simpa using h1
    have b2 : (p.ID == env.PingPacketId) = false := by simpa using h2
    simp [hs, hasHandler, handlers, List.lookup, b1, b2]
  · intro hs h1 h2
    have b1 : (p.ID == env.LoginStartPacketId) = false := by simpa using h1
    have b2 : (p.ID == env.EncryptionResponsePacketId) = false := by simpa using h2
    simp [hs, hasHandler, handlers, List.lookup, b1, b2]

/-- Witness for C5: the join-game id 35 is registered under no phase; in the Handshake phase
the frame is ignored. -/
theorem CallHandler_ignores_unregistered_witness :
    hasHandler demoEnv freshWorld.conn.ConnectionState 35 = false ∧
    CallHandler demoEnv ⟨35, [1, 2, 3]⟩ freshWorld = .returned freshWorld :=
  ⟨by decide, (CallHandler_ignores_unregistered demoEnv ⟨35, [1, 2, 3]⟩ freshWorld).1 (by decide)⟩

/-! ## C6: the protocol version check -/

/-- C6: for a login-start frame (a frame whose payload reads as a username),
`loginStartHandler` disconnects exactly when the declared protocol version differs from the
server version: declared above the server gives the reason "I'm still on NAME.", declared
below it gives "Your client is outdated. I'm on NAME.", NAME being the server version name,
and equal versions add no disconnect. On both rejections the disconnect is the only thing
done: no frame is written and the connection (verify token and pending username included)
is unchanged. -/
theorem loginStartHandler_version_check (env : Env) (p : RawPacket) (w : World)
    (username : GoString) (rest : List Byte)
    (hread : ReadString p.Data = some (username, rest)) :
    (w.conn.ProtocolVersion > env.GetServerVersion.ProtocolVersion →
      loginStartHandler env p w = .returned
        { conn := w.conn,
          events := w.events ++ [Event.disconnect w.conn.Writer
            (str "I'm still on " ++ env.GetServerVersion.Name ++ str ".")],
          drawn := w.drawn }) ∧
    (w.conn.ProtocolVersion < env.GetServerVersion.ProtocolVersion →
      loginStartHandler env p w = .returned
        { conn := w.conn,
          events := w.events ++ [Event.disconnect w.conn.Writer
            (str "Your client is outdated. I'm on " ++ env.GetServerVersion.Name ++ str ".")],
          drawn := w.drawn }) ∧
    (disconnectReasons (loginStartHandler env p w).world.events = disconnectReasons w.events ↔
      w.conn.ProtocolVersion = env.GetServerVersion.ProtocolVersion) := by
  refine ⟨?_, ?_, ?_⟩
  · intro h
    have h1 : ¬ env.GetServerVersion.ProtocolVersion > w.conn.ProtocolVersion := by omega
    have h2 : env.GetServerVersion.ProtocolVersion < w.conn.ProtocolVersion := h
    simp [loginStartHandler, hread, h1, h2, World.Disconnect]
  · intro h
    have h1 : env.GetServerVersion.ProtocolVersion > w.conn.ProtocolVersion := h
    simp [loginStartHandler, hread, h1, World.Disconnect]
  · simp only [loginStartHandler, hread]
    split
    · rename_i h
      simp [Outcome.world, World.Disconnect, disconnectReasons_append, disconnectReasons]
      omega
    · split
      · rename_i h1 h
        simp [Outcome.world, World.Disconnect, disconnectReasons_append, disconnectReasons]
        omega
      · rename_i h1 h2
        have he : w.conn.ProtocolVersion = env.GetServerVersion.ProtocolVersion := by omega
        split <;>
          simp [Outcome.world, World.Write, disconnectReasons_append, disconnectReasons, he]

/-- Witness for C6: a client that declared 341 and one that declared 339 against server
version 340. -/
theorem loginStartHandler_version_check_witness :
    loginStartHandler demoEnv loginStartFrame
        { loginWorld with conn := { loginWorld.conn with ProtocolVersion := 341 } }
      = .returned
        { conn := { loginWorld.conn with ProtocolVersion := 341 },
          events := [Event.disconnect Stream.transport (str "I'm still on 1.12.2.")],
          drawn := 1 } ∧
    loginStartHandler demoEnv loginStartFrame
        { loginWorld with conn := { loginWorld.conn with ProtocolVersion := 339 } }
      = .returned
        { conn := { loginWorld.conn with ProtocolVersion := 339 },
          events := [Event.disconnect Stream.transport
            (str "Your client is outdated. I'm on 1.12.2.")],
          drawn := 1 } :=
  ⟨(loginStartHandler_version_check demoEnv loginStartFrame
      { loginWorld with conn := { loginWorld.conn with ProtocolVersion := 341 } }
      (str "Steve") [] (by decide)).1 (by decide),
   (loginStartHandler_version_check demoEnv loginStartFrame
      { loginWorld with conn := { loginWorld.conn with ProtocolVersion := 339 } }
      (str "Steve") [] (by decide)).2.1 (by decide)⟩
/-! ## C7: the encryption request -/

/-- C7: for a login-start frame with username `u`, handled in the Login phase with the declared
protocol version equal to the server version on a server in online mode, `loginStartHandler`
writes exactly one frame: id `EncryptionRequestPacketId`, payload the single byte `0` (the
empty server id), then `Uvarint(len(publicKey))` and the public key, then `Uvarint(len(token))`
and the freshly generated token. Afterwards the connection stores that same token and `u`,
every other field is unchanged and the phase is still Login. -/
theorem loginStartHandler_encryption_request (env : Env) (p : RawPacket) (w : World)
    (u : GoString) (rest : List Byte)
    (hphase : w.conn.ConnectionState = LoginState)
    (hread : ReadString p.Data = some (u, rest))
    (hversion : w.conn.ProtocolVersion = env.GetServerVersion.ProtocolVersion)
    (honline : env.IsOnlineMode = true) :
    loginStartHandler env p w = .returned
      { conn := { w.conn with VerifyToken := env.GenerateVerifyToken w.drawn,
                              VerifyUsername := u },
        events := w.events ++ [Event.write w.conn.Writer
          ⟨env.EncryptionRequestPacketId,
            [0] ++ Uvarint env.GetPublicKey.length ++ env.GetPublicKey ++
              Uvarint (env.GenerateVerifyToken w.drawn).length ++
              env.GenerateVerifyToken w.drawn⟩],
        drawn := w.drawn + 1 } ∧
    (loginStartHandler env p w).world.conn.ConnectionState = LoginState := by
  have hempty : Uvarint (0 : Nat) = [0] := by decide
  have hstr : str "" = [] := by decide
  have hout : loginStartHandler env p w = .returned
      { conn := { w.conn with VerifyToken := env.GenerateVerifyToken w.drawn,
                              VerifyUsername := u },
        events := w.events ++ [Event.write w.conn.Writer
          ⟨env.EncryptionRequestPacketId,
            [0] ++ Uvarint env.GetPublicKey.length ++ env.GetPublicKey ++
              Uvarint (env.GenerateVerifyToken w.drawn).length ++
              env.GenerateVerifyToken w.drawn⟩],
        drawn := w.drawn + 1 } := by
    simp [loginStartHandler, hread, hversion, honline, World.Write, Response.ToRawPacket,
      Response.WriteString, WriteByteArray_data, NewResponse, hstr, hempty]
  refine ⟨hout, ?_⟩
  rw [hout]
  exact hphase

/-- Witness for C7: user `Steve` on the demo server; the token of call number 1 is
`[1, 7, 7, 7]`. -/
theorem loginStartHandler_encryption_request_witness :
    loginStartHandler demoEnv loginStartFrame loginWorld = .returned
      { conn := { loginWorld.conn with VerifyToken := [1, 7, 7, 7],
                                       VerifyUsername := str "Steve" },
        events := [Event.write Stream.transport
          ⟨1, [0, 3, 48, 129, 159, 4, 1, 7, 7, 7]⟩],
        drawn := 2 } :=
  ((loginStartHandler_encryption_request demoEnv loginStartFrame loginWorld (str "Steve") []
    (by decide) (by decide) (by decide) (by decide)).1).trans (by decide)

/-! ## C9: the frames of a successful login -/

/-- The payload the handler assembles for the join frame, after `Clear`. -/
theorem joinPayload_eq (r : Response) :
    (((((((r.Clear.WriteInt 0).WriteUnsignedByte 1).WriteInt 0).WriteUnsignedByte 0
      ).WriteUnsignedByte 0).WriteString (str "default")).WriteBoolean false).data
      = [0, 0, 0, 0, 1, 0, 0, 0, 0, 0, 0, 7, 100, 101, 102, 97, 117, 108, 116, 0] := by
  have h : r.Clear = ⟨[]⟩ := rfl
  rw [h]
  decide

/-- The world `encryptionResponseHandler` returns when every step succeeds. -/
theorem encryptionResponseHandler_success (env : Env) (p : RawPacket) (w : World)
    (encryptedSecret d1 sharedSecret encryptedToken d2 verifyToken : List Byte)
    (profile : Profile) (reason : GoString)
    (hread1 : ReadByteArray p.Data = some (encryptedSecret, d1))
    (hdec1 : env.DecryptPKCS1v15 env.GetPrivateKey encryptedSecret = some sharedSecret)
    (hread2 : ReadByteArray d1 = some (encryptedToken, d2))
    (hdec2 : env.DecryptPKCS1v15 env.GetPrivateKey encryptedToken = some verifyToken)
    (htoken : verifyToken = w.conn.VerifyToken)
    (hkey : aesKeySize sharedSecret = true)
    (hauth : env.Auth w.conn.VerifyUsername sharedSecret env.GetPublicKey = some profile)
    (hcan : env.CanConnect profile.Name profile.UUID = (true, reason)) :
    encryptionResponseHandler env p w = .returned
      { conn :=
          { Reader := ⟨w.conn.Reader.buffered, Stream.cipher sharedSecret w.conn.Reader.R⟩,
            Writer := Stream.cipher sharedSecret w.conn.Writer,
            ProtocolVersion := w.conn.ProtocolVersion,
            ConnectionState := PlayState,
            VerifyToken := [],
            VerifyUsername := [],
            SharedSecret := sharedSecret,
            PacketHandler := handlers env PlayState },
        events := w.events ++
          [Event.auth w.conn.VerifyUsername sharedSecret env.GetPublicKey,
           Event.write (Stream.cipher sharedSecret w.conn.Writer)
             ⟨env.LoginSuccessPacketId,
               Uvarint (env.ToHypenUUID profile.UUID).length ++ env.ToHypenUUID profile.UUID ++
                 Uvarint profile.Name.length ++ profile.Name⟩,
           Event.canConnect profile.Name profile.UUID,
           Event.finishLogin profile,
           Event.write (Stream.cipher sharedSecret w.conn.Writer)
             ⟨env.JoinGamePacketId,
               [0, 0, 0, 0, 1, 0, 0, 0, 0, 0, 0, 7, 100, 101, 102, 97, 117, 108, 116, 0]⟩],
        drawn := w.drawn } := by
  have hstr : str "" = [] := by decide
  subst htoken
  simp only [encryptionResponseHandler, hread1, hdec1, hread2, hdec2, hkey, hauth, hcan,
    ne_eq, not_true_eq_false, if_false]
  simp only [World.Write, World.record, Response.ToRawPacket, joinPayload_eq]
  simp [AssignHandler, handlers, Response.WriteString, WriteByteArray_data, NewResponse,
    EmtpyArray, hstr]

/-- C9: when an encryption-response frame is handled successfully (both byte arrays read and
decrypt, the token equals the stored one, the shared secret is a valid AES key, identity
verification returns a profile and the admission check allows it), `encryptionResponseHandler`
returns having written exactly two frames, in this order: the login-success frame, payload the
string encoding of the hyphenated identifier followed by the string encoding of the verified
name, and the join frame, id `JoinGamePacketId`, payload exactly the 20 bytes
`00 00 00 00, 01, 00 00 00 00, 00, 00, 07 "default", 00`, whatever the profile is. -/
theorem encryptionResponseHandler_success_frames (env : Env) (p : RawPacket) (w : World)
    (encryptedSecret d1 sharedSecret encryptedToken d2 verifyToken : List Byte)
    (profile : Profile) (reason : GoString)
    (hread1 : ReadByteArray p.Data = some (encryptedSecret, d1))
    (hdec1 : env.DecryptPKCS1v15 env.GetPrivateKey encryptedSecret = some sharedSecret)
    (hread2 : ReadByteArray d1 = some (encryptedToken, d2))
    (hdec2 : env.DecryptPKCS1v15 env.GetPrivateKey encryptedToken = some verifyToken)
    (htoken : verifyToken = w.conn.VerifyToken)
    (hkey : aesKeySize sharedSecret = true)
    (hauth : env.Auth w.conn.VerifyUsername sharedSecret env.GetPublicKey = some profile)
    (hcan : env.CanConnect profile.Name profile.UUID = (true, reason)) :
    ∃ w1, encryptionResponseHandler env p w = .returned w1 ∧
      framesWritten w1.events = framesWritten w.events ++
        [⟨env.LoginSuccessPacketId,
            (NewResponse.WriteString (env.ToHypenUUID profile.UUID)).data ++
              (NewResponse.WriteString profile.Name).data⟩,
         ⟨env.JoinGamePacketId,
            [0, 0, 0, 0, 1, 0, 0, 0, 0, 0, 0, 7, 100, 101, 102, 97, 117, 108, 116, 0]⟩] ∧
      ([0, 0, 0, 0, 1, 0, 0, 0, 0, 0, 0, 7, 100, 101, 102, 97, 117, 108, 116, 0] :
        List Byte).length = 20 ∧
      ([0, 0, 0, 0, 1, 0, 0, 0, 0, 0, 0, 7, 100, 101, 102, 97, 117, 108, 116, 0] : List Byte) =
        bigEndian 4 0 ++ bigEndian 1 1 ++ bigEndian 4 0 ++ bigEndian 1 0 ++ bigEndian 1 0 ++
          (Uvarint 7 ++ str "default") ++ [0] := by
  refine ⟨_, encryptionResponseHandler_success env p w encryptedSecret d1 sharedSecret
    encryptedToken d2 verifyToken profile reason hread1 hdec1 hread2 hdec2 htoken hkey hauth
    hcan, ?_, by decide, by decide⟩
  simp [framesWritten_append, framesWritten, Response.WriteString, WriteByteArray_data,
    NewResponse]

/-- Witness for C9: `Steve` answers the encryption request with the issued token. -/
theorem encryptionResponseHandler_success_frames_witness :
    ∃ w1, encryptionResponseHandler demoEnv (encryptionResponseFrame [0, 7, 7, 7]) loginWorld
        = .returned w1 ∧
      framesWritten w1.events = framesWritten loginWorld.events ++
        [⟨2, (NewResponse.WriteString (str "00000000-0000-0000-0000-00000000002a")).data ++
              (NewResponse.WriteString (str "Steve")).data⟩,
         ⟨35, [0, 0, 0, 0, 1, 0, 0, 0, 0, 0, 0, 7, 100, 101, 102, 97, 117, 108, 116, 0]⟩] ∧
      ([0, 0, 0, 0, 1, 0, 0, 0, 0, 0, 0, 7, 100, 101, 102, 97, 117, 108, 116, 0] :
        List Byte).length = 20 ∧
      ([0, 0, 0, 0, 1, 0, 0, 0, 0, 0, 0, 7, 100, 101, 102, 97, 117, 108, 116, 0] : List Byte) =
        bigEndian 4 0 ++ bigEndian 1 1 ++ bigEndian 4 0 ++ bigEndian 1 0 ++ bigEndian 1 0 ++
          (Uvarint 7 ++ str "default") ++ [0] :=
  encryptionResponseHandler_success_frames demoEnv (encryptionResponseFrame [0, 7, 7, 7])
    loginWorld demoSecret [4, 0, 7, 7, 7] demoSecret [0, 7, 7, 7] [] [0, 7, 7, 7]
    ⟨⟨0, 42⟩, str "Steve"⟩ [] (by decide) (by decide) (by decide) (by decide) (by decide)
    (by decide) (by decide) (by decide)

/-! ## C10: ping -/

theorem bigEndian_fromBigEndian_eight (b0 b1 b2 b3 b4 b5 b6 b7 : Byte) :
    bigEndian 8
      ((if fromBigEndian [b0, b1, b2, b3, b4, b5, b6, b7] < 2 ^ 63
          then (fromBigEndian [b0, b1, b2, b3, b4, b5, b6, b7] : Int)
          else (fromBigEndian [b0, b1, b2, b3, b4, b5, b6, b7] : Int) - 2 ^ 64) % 2 ^ 64).toNat
      = [b0, b1, b2, b3, b4, b5, b6, b7] := by
  have h0 := b0.isLt
  have h1 := b1.isLt
  have h2 := b2.isLt
  have h3 := b3.isLt
  have h4 := b4.isLt
  have h5 := b5.isLt
  have h6 := b6.isLt
  have h7 := b7.isLt
  simp only [fromBigEndian, List.foldl, bigEndian, toByte]
  split <;> simp only [List.cons.injEq, and_true] <;> refine ⟨?_, ?_, ?_, ?_, ?_, ?_, ?_, ?_⟩ <;>
    (apply Fin.ext; simp only []; omega)

theorem take_eight (l : List Byte) (h : 8 ≤ l.length) :
    ∃ b0 b1 b2 b3 b4 b5 b6 b7 rest, l = b0 :: b1 :: b2 :: b3 :: b4 :: b5 :: b6 :: b7 :: rest := by
  match l, h with
  | b0 :: b1 :: b2 :: b3 :: b4 :: b5 :: b6 :: b7 :: rest, _ =>
    exact ⟨b0, b1, b2, b3, b4, b5, b6, b7, rest, rfl⟩

/-- What `pingPongHandler` does with a payload of at least eight bytes. -/
theorem pingPongHandler_echo (env : Env) (p : RawPacket) (w : World)
    (hlen : 8 ≤ p.Data.length) :
    pingPongHandler env p w = .returned
      { w with events := w.events ++ [Event.write w.conn.Writer ⟨env.PingPacketId, p.Data.take 8⟩] } := by
  obtain ⟨b0, b1, b2, b3, b4, b5, b6, b7, rest, hd⟩ := take_eight p.Data hlen
  have hlt : ¬ p.Data.length < 8 := by omega
  simp only [pingPongHandler, ReadLong, hlt, if_false, World.Write, Response.ToRawPacket,
    Response.WriteLong, NewResponse, List.nil_append]
  rw [hd]
  simp only [List.take_succ_cons, List.take_zero]
  rw [bigEndian_fromBigEndian_eight]

/-- C10: for a connection in the Handshake phase and a ping frame (id `PingPacketId`, which
is a map key distinct from `HandshakePacketId`) whose payload holds at least eight bytes,
`CallHandler` reaches `pingPongHandler`, which returns having written exactly one frame, id
`PingPacketId`, payload the first eight bytes of the received payload in the same order; the
connection (phase and every other field) is unchanged. -/
theorem CallHandler_ping_echo (env : Env) (p : RawPacket) (w : World)
    (hphase : w.conn.ConnectionState = HandshakeState)
    (hid : p.ID = env.PingPacketId)
    (hdistinct : env.PingPacketId ≠ env.HandshakePacketId)
    (hlen : 8 ≤ p.Data.length) :
    CallHandler env p w = .returned
      { conn := w.conn,
        events := w.events ++ [Event.write w.conn.Writer ⟨env.PingPacketId, p.Data.take 8⟩],
        drawn := w.drawn } := by
  have b1 : (p.ID == env.HandshakePacketId) = false := by
    rw [hid]; simpa using hdistinct
  have b2 : (p.ID == env.PingPacketId) = true := by simp [hid]
  simp only [CallHandler, hphase, handlers, stateMapHandler.callHandler, List.lookup, b1, b2,
    Handler.run]
  exact pingPongHandler_echo env p w hlen

/-- Witness for C10: a nine-byte payload; the first eight bytes come back. -/
theorem CallHandler_ping_echo_witness :
    CallHandler demoEnv pingFrame freshWorld = .returned
      { conn := freshConn,
        events := [Event.write Stream.transport ⟨1, [255, 0, 1, 2, 3, 4, 5, 254]⟩],
        drawn := 0 } :=
  (CallHandler_ping_echo demoEnv pingFrame freshWorld (by decide) (by decide) (by decide)
    (by decide)).trans (by decide)
/-! ## C8: login start with online mode off -/

/-- C8, counterexample: on the demo server with online mode off, a fresh connection that sends
a handshake frame declaring the server's protocol version 340 and requesting login, followed
by a login-start frame, both handled without panic, ends in the Login phase, not in Play, and
no frame at all (so no join frame) has been written. -/
theorem offline_login_does_not_reach_play :
    offlineEnv.IsOnlineMode = false ∧
    freshWorld.conn.ConnectionState = HandshakeState ∧
    runFrames offlineEnv [handshakeFrame 2, loginStartFrame] freshWorld = .returned
      { conn := { freshConn with ProtocolVersion := 340, ConnectionState := LoginState,
                                 PacketHandler := handlers offlineEnv LoginState },
        events := [], drawn := 0 } ∧
    offlineEnv.GetServerVersion.ProtocolVersion = 340 ∧
    (runFrames offlineEnv [handshakeFrame 2, loginStartFrame] freshWorld).world.conn.ConnectionState
      ≠ PlayState ∧
    framesWritten
      (runFrames offlineEnv [handshakeFrame 2, loginStartFrame] freshWorld).world.events = [] := by
  decide

/-- C8, amended: on a server with online mode off, for a connection in the Handshake phase, a
handshake frame that declares the server's protocol version and requests login, followed by a
login-start frame, are both handled without panic and leave the connection in the Login
phase with the declared version stored: the login-start frame has no effect, so nothing is
written (no join frame), nothing is disconnected, no token is generated, and the phase is not
Play. -/
theorem offline_login_stops_in_login (env : Env) (hs ls : RawPacket) (w : World)
    (nextState port : Nat) (address username : GoString) (d1 d2 d3 d4 rest : List Byte)
    (hoffline : env.IsOnlineMode = false)
    (hphase : w.conn.ConnectionState = HandshakeState)
    (hid : hs.ID = env.HandshakePacketId)
    (hversion : ReadUnsignedVarint hs.Data = some (env.GetServerVersion.ProtocolVersion, d1))
    (haddress : ReadString d1 = some (address, d2))
    (hport : ReadUnsignedShort d2 = some (port, d3))
    (hnext : ReadUnsignedVarint d3 = some (nextState, d4))
    (hlogin : nextState = env.HandshakeLoginNextState)
    (hnotstatus : nextState ≠ env.HandshakeStatusNextState)
    (hid2 : ls.ID = env.LoginStartPacketId)
    (hname : ReadString ls.Data = some (username, rest)) :
    runFrames env [hs, ls] w = .returned
      { conn := { w.conn with ProtocolVersion := env.GetServerVersion.ProtocolVersion,
                              ConnectionState := LoginState,
                              PacketHandler := handlers env LoginState },
        events := w.events, drawn := w.drawn } ∧
    (runFrames env [hs, ls] w).world.conn.ConnectionState ≠ PlayState ∧
    framesWritten (runFrames env [hs, ls] w).world.events = framesWritten w.events := by
  have b1 : (hs.ID == env.HandshakePacketId) = true := by simp [hid]
  have b2 : (ls.ID == env.LoginStartPacketId) = true := by simp [hid2]
  subst hlogin
  have h1 : CallHandler env hs w = .returned
      { conn := { w.conn with ProtocolVersion := env.GetServerVersion.ProtocolVersion,
                              ConnectionState := LoginState,
                              PacketHandler := handlers env LoginState },
        events := w.events, drawn := w.drawn } := by
    simp [CallHandler, hphase, handlers, stateMapHandler.callHandler, List.lookup, b1,
      Handler.run, handshakeHandler, hversion, haddress, hport, hnext, hnotstatus, AssignHandler]
  have h2 : CallHandler env ls
      { conn := { w.conn with ProtocolVersion := env.GetServerVersion.ProtocolVersion,
                              ConnectionState := LoginState,
                              PacketHandler := handlers env LoginState },
        events := w.events, drawn := w.drawn } = .returned
      { conn := { w.conn with ProtocolVersion := env.GetServerVersion.ProtocolVersion,
                              ConnectionState := LoginState,
                              PacketHandler := handlers env LoginState },
        events := w.events, drawn := w.drawn } := by
    simp [CallHandler, handlers, stateMapHandler.callHandler, List.lookup, b2,
      Handler.run, loginStartHandler, hname, hoffline]
  have hrun : runFrames env [hs, ls] w = .returned
      { conn := { w.conn with ProtocolVersion := env.GetServerVersion.ProtocolVersion,
                              ConnectionState := LoginState,
                              PacketHandler := handlers env LoginState },
        events := w.events, drawn := w.drawn } := by
    simp only [runFrames, h1, h2]
  refine ⟨hrun, ?_, ?_⟩
  · rw [hrun]; simp [Outcome.world]
  · rw [hrun]; simp [Outcome.world]

/-- Witness for C8 (amended): the demo server with online mode off. -/
theorem offline_login_stops_in_login_witness :
    runFrames offlineEnv [handshakeFrame 2, loginStartFrame] freshWorld = .returned
      { conn := { freshWorld.conn with
                    ProtocolVersion := offlineEnv.GetServerVersion.ProtocolVersion,
                    ConnectionState := LoginState,
                    PacketHandler := handlers offlineEnv LoginState },
        events := freshWorld.events, drawn := freshWorld.drawn } :=
  (offline_login_stops_in_login offlineEnv (handshakeFrame 2) loginStartFrame freshWorld
    2 25565 (str "localhost") (str "Steve") ((handshakeFrame 2).Data.drop 2)
    ((handshakeFrame 2).Data.drop 12) ((handshakeFrame 2).Data.drop 14) [] []
    (by decide) (by decide) (by decide) (by decide) (by decide) (by decide) (by decide)
    (by decide) (by decide) (by decide) (by decide)).1

/-! ## C11: unknown handshake next state -/

/-- C11, counterexample: on the demo server (status is 1, login is 2) a handshake frame
requesting next state 3 is handled without any disconnect: the handler returns, the list of
disconnect reasons is empty, no frame is written and the phase is still Handshake. -/
theorem unknown_next_state_not_disconnected :
    (3 : Nat) ≠ demoEnv.HandshakeStatusNextState ∧ (3 : Nat) ≠ demoEnv.HandshakeLoginNextState ∧
    handshakeHandler demoEnv (handshakeFrame 3) freshWorld = .returned
      { conn := { freshConn with ProtocolVersion := 340 }, events := [], drawn := 0 } ∧
    disconnectReasons (handshakeHandler demoEnv (handshakeFrame 3) freshWorld).world.events
      = [] := by
  decide

/-- C11, amended: for a handshake frame whose payload reads as version, address, port and next
state, with a next state that is neither the status nor the login value, `handshakeHandler`
returns without disconnecting: the only effect is that the declared protocol version is
stored; no disconnect reason is given, no frame is written and the phase is unchanged (the
unknown value is only logged). -/
theorem handshakeHandler_unknown_next_state (env : Env) (p : RawPacket) (w : World)
    (version port nextState : Nat) (address : GoString) (d1 d2 d3 d4 : List Byte)
    (hversion : ReadUnsignedVarint p.Data = some (version, d1))
    (haddress : ReadString d1 = some (address, d2))
    (hport : ReadUnsignedShort d2 = some (port, d3))
    (hnext : ReadUnsignedVarint d3 = some (nextState, d4))
    (hstatus : nextState ≠ env.HandshakeStatusNextState)
    (hlogin : nextState ≠ env.HandshakeLoginNextState) :
    handshakeHandler env p w = .returned
      { conn := { w.conn with ProtocolVersion := version }, events := w.events,
        drawn := w.drawn } ∧
    disconnectReasons (handshakeHandler env p w).world.events = disconnectReasons w.events ∧
    framesWritten (handshakeHandler env p w).world.events = framesWritten w.events ∧
    (handshakeHandler env p w).world.conn.ConnectionState = w.conn.ConnectionState := by
  have h : handshakeHandler env p w = .returned
      { conn := { w.conn with ProtocolVersion := version }, events := w.events,
        drawn := w.drawn } := by
    simp [handshakeHandler, hversion, haddress, hport, hnext, hstatus, hlogin]
  refine ⟨h, ?_, ?_, ?_⟩ <;> rw [h] <;> rfl

/-- Witness for C11 (amended): next state 3 on the demo server. -/
theorem handshakeHandler_unknown_next_state_witness :
    handshakeHandler demoEnv (handshakeFrame 3) freshWorld = .returned
      { conn := { freshWorld.conn with ProtocolVersion := 340 }, events := freshWorld.events,
        drawn := freshWorld.drawn } :=
  (handshakeHandler_unknown_next_state demoEnv (handshakeFrame 3) freshWorld 340 25565 3
    (str "localhost") ((handshakeFrame 3).Data.drop 2) ((handshakeFrame 3).Data.drop 12)
    ((handshakeFrame 3).Data.drop 14) [] (by decide) (by decide) (by decide) (by decide)
    (by decide) (by decide)).1

/-! ## The other ways `encryptionResponseHandler` ends -/

/-- The world `encryptionResponseHandler` returns when the admission check refuses. -/
theorem encryptionResponseHandler_denied (env : Env) (p : RawPacket) (w : World)
    (encryptedSecret d1 sharedSecret encryptedToken d2 verifyToken : List Byte)
    (profile : Profile) (reason : GoString)
    (hread1 : ReadByteArray p.Data = some (encryptedSecret, d1))
    (hdec1 : env.DecryptPKCS1v15 env.GetPrivateKey encryptedSecret = some sharedSecret)
    (hread2 : ReadByteArray d1 = some (encryptedToken, d2))
    (hdec2 : env.DecryptPKCS1v15 env.GetPrivateKey encryptedToken = some verifyToken)
    (htoken : verifyToken = w.conn.VerifyToken)
    (hkey : aesKeySize sharedSecret = true)
    (hauth : env.Auth w.conn.VerifyUsername sharedSecret env.GetPublicKey = some profile)
    (hcan : env.CanConnect profile.Name profile.UUID = (false, reason)) :
    encryptionResponseHandler env p w = .returned
      { conn :=
          { Reader := ⟨w.conn.Reader.buffered, Stream.cipher sharedSecret w.conn.Reader.R⟩,
            Writer := Stream.cipher sharedSecret w.conn.Writer,
            ProtocolVersion := w.conn.ProtocolVersion,
            ConnectionState := w.conn.ConnectionState,
            VerifyToken := [],
            VerifyUsername := [],
            SharedSecret := sharedSecret,
            PacketHandler := w.conn.PacketHandler },
        events := w.events ++
          [Event.auth w.conn.VerifyUsername sharedSecret env.GetPublicKey,
           Event.write (Stream.cipher sharedSecret w.conn.Writer)
             ⟨env.LoginSuccessPacketId,
               Uvarint (env.ToHypenUUID profile.UUID).length ++ env.ToHypenUUID profile.UUID ++
                 Uvarint profile.Name.length ++ profile.Name⟩,
           Event.canConnect profile.Name profile.UUID,
           Event.disconnect (Stream.cipher sharedSecret w.conn.Writer) reason],
        drawn := w.drawn } := by
  have hstr : str "" = [] := by decide
  subst htoken
  simp only [encryptionResponseHandler, hread1, hdec1, hread2, hdec2, hkey, hauth, hcan,
    ne_eq, not_true_eq_false, if_false]
  simp [World.Write, World.record, World.Disconnect, Response.ToRawPacket,
    Response.WriteString, WriteByteArray_data, NewResponse, EmtpyArray, hstr]

/-- The world `encryptionResponseHandler` returns when identity verification fails. -/
theorem encryptionResponseHandler_auth_failed (env : Env) (p : RawPacket) (w : World)
    (encryptedSecret d1 sharedSecret encryptedToken d2 verifyToken : List Byte)
    (hread1 : ReadByteArray p.Data = some (encryptedSecret, d1))
    (hdec1 : env.DecryptPKCS1v15 env.GetPrivateKey encryptedSecret = some sharedSecret)
    (hread2 : ReadByteArray d1 = some (encryptedToken, d2))
    (hdec2 : env.DecryptPKCS1v15 env.GetPrivateKey encryptedToken = some verifyToken)
    (htoken : verifyToken = w.conn.VerifyToken)
    (hkey : aesKeySize sharedSecret = true)
    (hauth : env.Auth w.conn.VerifyUsername sharedSecret env.GetPublicKey = none) :
    encryptionResponseHandler env p w = .returned
      { conn := { w.conn with
            Reader := ⟨w.conn.Reader.buffered, Stream.cipher sharedSecret w.conn.Reader.R⟩,
            Writer := Stream.cipher sharedSecret w.conn.Writer },
        events := w.events ++
          [Event.auth w.conn.VerifyUsername sharedSecret env.GetPublicKey,
           Event.disconnect (Stream.cipher sharedSecret w.conn.Writer)
             (str "Could not connect to Mojang servers.")],
        drawn := w.drawn } := by
  subst htoken
  simp only [encryptionResponseHandler, hread1, hdec1, hread2, hdec2, hkey, hauth,
    ne_eq, not_true_eq_false, if_false]
  simp [World.record, World.Disconnect]

/-- The world `encryptionResponseHandler` returns when the decrypted token is not the stored
one. -/
theorem encryptionResponseHandler_mismatch (env : Env) (p : RawPacket) (w : World)
    (encryptedSecret d1 sharedSecret encryptedToken d2 verifyToken : List Byte)
    (hread1 : ReadByteArray p.Data = some (encryptedSecret, d1))
    (hdec1 : env.DecryptPKCS1v15 env.GetPrivateKey encryptedSecret = some sharedSecret)
    (hread2 : ReadByteArray d1 = some (encryptedToken, d2))
    (hdec2 : env.DecryptPKCS1v15 env.GetPrivateKey encryptedToken = some verifyToken)
    (hne : verifyToken ≠ w.conn.VerifyToken) :
    encryptionResponseHandler env p w = .returned
      { conn := w.conn,
        events := w.events ++ [Event.disconnect w.conn.Writer (str "Invalid verify token.")],
        drawn := w.drawn } := by
  simp [encryptionResponseHandler, hread1, hdec1, hread2, hdec2, hne, World.Disconnect]

/-- With a matching token and a shared secret that `aes.NewCipher` refuses, the handler
panics with the world as it was. -/
theorem encryptionResponseHandler_bad_key (env : Env) (p : RawPacket) (w : World)
    (encryptedSecret d1 sharedSecret encryptedToken d2 verifyToken : List Byte)
    (hread1 : ReadByteArray p.Data = some (encryptedSecret, d1))
    (hdec1 : env.DecryptPKCS1v15 env.GetPrivateKey encryptedSecret = some sharedSecret)
    (hread2 : ReadByteArray d1 = some (encryptedToken, d2))
    (hdec2 : env.DecryptPKCS1v15 env.GetPrivateKey encryptedToken = some verifyToken)
    (htoken : verifyToken = w.conn.VerifyToken)
    (hkey : aesKeySize sharedSecret = false) :
    encryptionResponseHandler env p w = .panicked w := by
  subst htoken
  simp [encryptionResponseHandler, hread1, hdec1, hread2, hdec2, hkey]

/-! ## C12: when the verify token is cleared -/

/-- C12, counterexample: on a connection holding the token `[0, 7, 7, 7]`, an encryption
response with another token (comparison fails) and, on a server whose identity service rejects
the user, an encryption response with the right token (comparison succeeds, verification
fails) both make the handler return with the token `[0, 7, 7, 7]` still stored. -/
theorem verify_token_kept_on_failure :
    loginWorld.conn.ConnectionState = LoginState ∧
    (∃ w1, encryptionResponseHandler demoEnv (encryptionResponseFrame [9, 9]) loginWorld
        = .returned w1 ∧ w1.conn.VerifyToken = [0, 7, 7, 7]) ∧
    (∃ w1, encryptionResponseHandler noAuthEnv (encryptionResponseFrame [0, 7, 7, 7]) loginWorld
        = .returned w1 ∧ w1.conn.VerifyToken = [0, 7, 7, 7]) := by
  refine ⟨by decide, ⟨_, rfl, by decide⟩, ⟨_, rfl, by decide⟩⟩

/-- C12, amended: for an encryption-response frame whose two byte arrays read and decrypt,
handled with a stored token equal to the decrypted one and a shared secret of valid AES key
size: when identity verification succeeds, the handler returns with the stored verify token
and the pending username empty, whether or not the admission check allows the connection;
when identity verification fails, it returns with the stored token unchanged. When the
decrypted token differs from the stored one, it returns with the stored token unchanged. -/
theorem encryptionResponseHandler_token_cleared (env : Env) (p : RawPacket) (w : World)
    (encryptedSecret d1 sharedSecret encryptedToken d2 verifyToken : List Byte)
    (hread1 : ReadByteArray p.Data = some (encryptedSecret, d1))
    (hdec1 : env.DecryptPKCS1v15 env.GetPrivateKey encryptedSecret = some sharedSecret)
    (hread2 : ReadByteArray d1 = some (encryptedToken, d2))
    (hdec2 : env.DecryptPKCS1v15 env.GetPrivateKey encryptedToken = some verifyToken) :
    (verifyToken = w.conn.VerifyToken → aesKeySize sharedSecret = true →
      ∀ profile, env.Auth w.conn.VerifyUsername sharedSecret env.GetPublicKey = some profile →
        ∃ w1, encryptionResponseHandler env p w = .returned w1 ∧
          w1.conn.VerifyToken = [] ∧ w1.conn.VerifyUsername = []) ∧
    (verifyToken = w.conn.VerifyToken → aesKeySize sharedSecret = true →
      env.Auth w.conn.VerifyUsername sharedSecret env.GetPublicKey = none →
        ∃ w1, encryptionResponseHandler env p w = .returned w1 ∧
          w1.conn.VerifyToken = w.conn.VerifyToken) ∧
    (verifyToken ≠ w.conn.VerifyToken →
      ∃ w1, encryptionResponseHandler env p w = .returned w1 ∧
        w1.conn.VerifyToken = w.conn.VerifyToken) := by
  refine ⟨?_, ?_, ?_⟩
  · intro htoken hkey profile hauth
    cases hc : env.CanConnect profile.Name profile.UUID with
    | mk ok reason =>
      cases ok with
      | false =>
        exact ⟨_, encryptionResponseHandler_denied env p w encryptedSecret d1 sharedSecret
          encryptedToken d2 verifyToken profile reason hread1 hdec1 hread2 hdec2 htoken hkey
          hauth hc, rfl, rfl⟩
      | true =>
        exact ⟨_, encryptionResponseHandler_success env p w encryptedSecret d1 sharedSecret
          encryptedToken d2 verifyToken profile reason hread1 hdec1 hread2 hdec2 htoken hkey
          hauth hc, rfl, rfl⟩
  · intro htoken hkey hauth
    exact ⟨_, encryptionResponseHandler_auth_failed env p w encryptedSecret d1 sharedSecret
      encryptedToken d2 verifyToken hread1 hdec1 hread2 hdec2 htoken hkey hauth, rfl⟩
  · intro hne
    exact ⟨_, encryptionResponseHandler_mismatch env p w encryptedSecret d1 sharedSecret
      encryptedToken d2 verifyToken hread1 hdec1 hread2 hdec2 hne, rfl⟩

/-- Witness for C12 (amended): the matching response on the demo server clears the token. -/
theorem encryptionResponseHandler_token_cleared_witness :
    ∃ w1, encryptionResponseHandler demoEnv (encryptionResponseFrame [0, 7, 7, 7]) loginWorld
        = .returned w1 ∧ w1.conn.VerifyToken = [] ∧ w1.conn.VerifyUsername = [] :=
  (encryptionResponseHandler_token_cleared demoEnv (encryptionResponseFrame [0, 7, 7, 7])
    loginWorld demoSecret [4, 0, 7, 7, 7] demoSecret [0, 7, 7, 7] [] [0, 7, 7, 7]
    (by decide) (by decide) (by decide) (by decide)).1 (by decide) (by decide)
    ⟨⟨0, 42⟩, str "Steve"⟩ (by decide)
/-! ## C18: where the cipher is installed -/

/-- C18, counterexample: on a connection holding the token `[0, 7, 7, 7]`, an encryption
response whose token decrypts to `[0, 7, 7, 7]` but whose shared secret has five bytes makes
the handler panic at `aes.NewCipher`; neither stream has been wrapped. -/
theorem matching_token_bad_key_not_wrapped :
    ReadByteArray shortSecretFrame.Data = some ([1, 2, 3, 4, 5], [4, 0, 7, 7, 7]) ∧
    demoEnv.DecryptPKCS1v15 demoEnv.GetPrivateKey [0, 7, 7, 7]
      = some loginWorld.conn.VerifyToken ∧
    encryptionResponseHandler demoEnv shortSecretFrame loginWorld = .panicked loginWorld ∧
    (encryptionResponseHandler demoEnv shortSecretFrame loginWorld).world.conn.Writer
      = Stream.transport ∧
    (encryptionResponseHandler demoEnv shortSecretFrame loginWorld).world.conn.Reader.R
      = Stream.transport := by
  decide

/-- C18, amended: for an encryption-response frame whose two byte arrays read and decrypt:
when the decrypted token equals the stored one and the decrypted shared secret is a valid AES
key (16, 24 or 32 bytes), the handler wraps the output stream and the source of the input
reader in the cipher keyed by the decrypted shared secret before it writes any frame. So every
frame and every disconnect reason it sends (login-success, join, or a disconnect reason) is
sent through the wrapped output stream, whatever is written to it reaching the former output
stream only as the cipher's output; every byte the reader takes from its source afterwards
passes through the cipher; the bytes it had buffered before are delivered unchanged and
everything sent before the call is unchanged. When the token does not match, neither stream
is wrapped. When the token matches but the shared secret is not a valid AES key, the handler
panics and neither stream is wrapped. -/
theorem encryptionResponseHandler_cipher_point (env : Env) (p : RawPacket) (w : World)
    (encryptedSecret d1 sharedSecret encryptedToken d2 verifyToken : List Byte)
    (hread1 : ReadByteArray p.Data = some (encryptedSecret, d1))
    (hdec1 : env.DecryptPKCS1v15 env.GetPrivateKey encryptedSecret = some sharedSecret)
    (hread2 : ReadByteArray d1 = some (encryptedToken, d2))
    (hdec2 : env.DecryptPKCS1v15 env.GetPrivateKey encryptedToken = some verifyToken) :
    (verifyToken = w.conn.VerifyToken → aesKeySize sharedSecret = true →
      ∃ w1 sent, encryptionResponseHandler env p w = .returned w1 ∧
        w1.events = w.events ++ sent ∧
        (∀ via packet, Event.write via packet ∈ sent →
          via = Stream.cipher sharedSecret w.conn.Writer) ∧
        (∀ via reason, Event.disconnect via reason ∈ sent →
          via = Stream.cipher sharedSecret w.conn.Writer) ∧
        ((∃ via packet, Event.write via packet ∈ sent) ∨
          (∃ via reason, Event.disconnect via reason ∈ sent)) ∧
        w1.conn.Writer = Stream.cipher sharedSecret w.conn.Writer ∧
        w1.conn.Reader = ⟨w.conn.Reader.buffered, Stream.cipher sharedSecret w.conn.Reader.R⟩ ∧
        (∀ enc out, (Stream.cipher sharedSecret w.conn.Writer).write enc out
          = w.conn.Writer.write enc (enc sharedSecret out)) ∧
        (∀ dec wire, w1.conn.Reader.deliver dec wire
          = w.conn.Reader.buffered ++ dec sharedSecret (w.conn.Reader.R.read dec wire))) ∧
    (verifyToken ≠ w.conn.VerifyToken →
      ∃ w1, encryptionResponseHandler env p w = .returned w1 ∧
        w1.conn.Writer = w.conn.Writer ∧ w1.conn.Reader = w.conn.Reader ∧
        (∀ dec wire, w1.conn.Reader.deliver dec wire = w.conn.Reader.deliver dec wire)) ∧
    (verifyToken = w.conn.VerifyToken → aesKeySize sharedSecret = false →
      encryptionResponseHandler env p w = .panicked w ∧
      (encryptionResponseHandler env p w).world.conn.Writer = w.conn.Writer ∧
      (encryptionResponseHandler env p w).world.conn.Reader = w.conn.Reader) := by
  refine ⟨?_, ?_, ?_⟩
  · intro htoken hkey
    cases hauth : env.Auth w.conn.VerifyUsername sharedSecret env.GetPublicKey with
    | none =>
      refine ⟨_, _, encryptionResponseHandler_auth_failed env p w encryptedSecret d1
        sharedSecret encryptedToken d2 verifyToken hread1 hdec1 hread2 hdec2 htoken hkey hauth,
        rfl, ?_, ?_, ?_, rfl, rfl, fun _ _ => rfl, fun _ _ => rfl⟩
      · intro via packet hm
        simp at hm
      · intro via reason hm
        simp at hm
        exact hm.1
      · exact Or.inr ⟨_, _, List.mem_cons_of_mem _ (List.mem_singleton_self _)⟩
    | some profile =>
      cases hc : env.CanConnect profile.Name profile.UUID with
      | mk ok reason =>
        cases ok with
        | false =>
          refine ⟨_, _, encryptionResponseHandler_denied env p w encryptedSecret d1
            sharedSecret encryptedToken d2 verifyToken profile reason hread1 hdec1 hread2 hdec2
            htoken hkey hauth hc, rfl, ?_, ?_, ?_, rfl, rfl, fun _ _ => rfl, fun _ _ => rfl⟩
          · intro via packet hm
            simp at hm
            exact hm.1
          · intro via reason1 hm
            simp at hm
            exact hm.1
          · exact Or.inl ⟨_, _, List.mem_cons_of_mem _ (List.mem_cons_self _ _)⟩
        | true =>
          refine ⟨_, _, encryptionResponseHandler_success env p w encryptedSecret d1
            sharedSecret encryptedToken d2 verifyToken profile reason hread1 hdec1 hread2 hdec2
            htoken hkey hauth hc, rfl, ?_, ?_, ?_, rfl, rfl, fun _ _ => rfl, fun _ _ => rfl⟩
          · intro via packet hm
            simp at hm
            rcases hm with hm | hm <;> exact hm.1
          · intro via reason1 hm
            simp at hm
          · exact Or.inl ⟨_, _, List.mem_cons_of_mem _ (List.mem_cons_self _ _)⟩
  · intro hne
    exact ⟨_, encryptionResponseHandler_mismatch env p w encryptedSecret d1 sharedSecret
      encryptedToken d2 verifyToken hread1 hdec1 hread2 hdec2 hne, rfl, rfl, fun _ _ => rfl⟩
  · intro htoken hkey
    have hpanic := encryptionResponseHandler_bad_key env p w encryptedSecret d1 sharedSecret
      encryptedToken d2 verifyToken hread1 hdec1 hread2 hdec2 htoken hkey
    refine ⟨hpanic, ?_, ?_⟩ <;> rw [hpanic] <;> rfl

/-- Witness for C18 (amended): the matching response with the sixteen-byte secret on a
connection whose reader holds the two bytes 250, 251 unread. With the stand-in cipher (which
adds 16 to every byte) the reader then delivers 250, 251 unchanged and the three bytes
1, 2, 3 arriving on the transport as 17, 18, 19. -/
theorem encryptionResponseHandler_cipher_point_witness :
    ∃ w1 sent, encryptionResponseHandler demoEnv (encryptionResponseFrame [0, 7, 7, 7])
        bufferedLoginWorld = .returned w1 ∧
      w1.events = bufferedLoginWorld.events ++ sent ∧
      (∀ via packet, Event.write via packet ∈ sent →
        via = Stream.cipher demoSecret Stream.transport) ∧
      w1.conn.Writer = Stream.cipher demoSecret Stream.transport ∧
      w1.conn.Reader = ⟨[250, 251], Stream.cipher demoSecret Stream.transport⟩ ∧
      w1.conn.Reader.deliver demoCipher [1, 2, 3] = [250, 251, 17, 18, 19] :=
  match encryptionResponseHandler_cipher_point demoEnv (encryptionResponseFrame [0, 7, 7, 7])
    bufferedLoginWorld demoSecret [4, 0, 7, 7, 7] demoSecret [0, 7, 7, 7] [] [0, 7, 7, 7]
    (by decide) (by decide) (by decide) (by decide) with
  | ⟨hmatch, _, _⟩ =>
    match hmatch (by decide) (by decide) with
    | ⟨w1, sent, hret, hevents, hwrite, _, _, hwriter, hreader, _, hdeliver⟩ =>
      ⟨w1, sent, hret, hevents, hwrite, hwriter, hreader,
        (hdeliver demoCipher [1, 2, 3]).trans (by decide)⟩

/-! ## C19: admission denied -/

/-- C19: for an encryption-response frame handled in the Login phase whose token matches,
whose shared secret is a valid AES key, whose identity verification succeeds and whose
admission check returns `(false, reason)`, `encryptionResponseHandler` returns after, in this
order, the identity verification, the login-success frame, the admission check and the
disconnect with exactly `reason`: the login-success frame is the only frame written and was
written before the admission check, `FinishLogin` is not called, no join frame is written and
the phase is still Login. -/
theorem encryptionResponseHandler_admission_denied (env : Env) (p : RawPacket) (w : World)
    (encryptedSecret d1 sharedSecret encryptedToken d2 verifyToken : List Byte)
    (profile : Profile) (reason : GoString)
    (hphase : w.conn.ConnectionState = LoginState)
    (hread1 : ReadByteArray p.Data = some (encryptedSecret, d1))
    (hdec1 : env.DecryptPKCS1v15 env.GetPrivateKey encryptedSecret = some sharedSecret)
    (hread2 : ReadByteArray d1 = some (encryptedToken, d2))
    (hdec2 : env.DecryptPKCS1v15 env.GetPrivateKey encryptedToken = some verifyToken)
    (htoken : verifyToken = w.conn.VerifyToken)
    (hkey : aesKeySize sharedSecret = true)
    (hauth : env.Auth w.conn.VerifyUsername sharedSecret env.GetPublicKey = some profile)
    (hcan : env.CanConnect profile.Name profile.UUID = (false, reason)) :
    ∃ w1, encryptionResponseHandler env p w = .returned w1 ∧
      w1.events = w.events ++
        [Event.auth w.conn.VerifyUsername sharedSecret env.GetPublicKey,
         Event.write (Stream.cipher sharedSecret w.conn.Writer)
           ⟨env.LoginSuccessPacketId,
             (NewResponse.WriteString (env.ToHypenUUID profile.UUID)).data ++
               (NewResponse.WriteString profile.Name).data⟩,
         Event.canConnect profile.Name profile.UUID,
         Event.disconnect (Stream.cipher sharedSecret w.conn.Writer) reason] ∧
      disconnectReasons w1.events = disconnectReasons w.events ++ [reason] ∧
      framesWritten w1.events = framesWritten w.events ++
        [⟨env.LoginSuccessPacketId,
          (NewResponse.WriteString (env.ToHypenUUID profile.UUID)).data ++
            (NewResponse.WriteString profile.Name).data⟩] ∧
      (∀ pr, Event.finishLogin pr ∈ w1.events → Event.finishLogin pr ∈ w.events) ∧
      w1.conn.ConnectionState = LoginState := by
  refine ⟨_, encryptionResponseHandler_denied env p w encryptedSecret d1 sharedSecret
    encryptedToken d2 verifyToken profile reason hread1 hdec1 hread2 hdec2 htoken hkey hauth
    hcan, ?_, ?_, ?_, ?_, hphase⟩
  · simp [Response.WriteString, WriteByteArray_data, NewResponse]
  · simp [disconnectReasons_append, disconnectReasons]
  · simp [framesWritten_append, framesWritten, Response.WriteString, WriteByteArray_data,
      NewResponse]
  · intro pr hm
    simpa using hm

/-- Witness for C19: the demo server refusing every admission. -/
theorem encryptionResponseHandler_admission_denied_witness :
    ∃ w1, encryptionResponseHandler closedEnv (encryptionResponseFrame [0, 7, 7, 7]) loginWorld
        = .returned w1 ∧
      disconnectReasons w1.events = [str "Server is full."] ∧
      framesWritten w1.events =
        [⟨2, (NewResponse.WriteString (str "00000000-0000-0000-0000-00000000002a")).data ++
            (NewResponse.WriteString (str "Steve")).data⟩] ∧
      w1.conn.ConnectionState = LoginState :=
  match encryptionResponseHandler_admission_denied closedEnv (encryptionResponseFrame [0, 7, 7, 7])
    loginWorld demoSecret [4, 0, 7, 7, 7] demoSecret [0, 7, 7, 7] [] [0, 7, 7, 7]
    ⟨⟨0, 42⟩, str "Steve"⟩ (str "Server is full.") (by decide) (by decide) (by decide)
    (by decide) (by decide) (by decide) (by decide) (by decide) (by decide) with
  | ⟨w1, h, _, hd, hf, _, hs⟩ => ⟨w1, h, hd, hf, hs⟩
/-! ## C20: the assigned handler set follows the phase -/

theorem handshakeHandler_assigned (env : Env) (p : RawPacket) (w : World)
    (h : w.conn.PacketHandler = handlers env w.conn.ConnectionState) :
    (handshakeHandler env p w).world.conn.PacketHandler =
      handlers env (handshakeHandler env p w).world.conn.ConnectionState := by
  generalize ho : handshakeHandler env p w = o
  unfold handshakeHandler at ho
  repeat' split at ho
  all_goals subst ho
  all_goals simp [Outcome.world, World.Write, AssignHandler, handlers, h]

theorem loginStartHandler_assigned (env : Env) (p : RawPacket) (w : World)
    (h : w.conn.PacketHandler = handlers env w.conn.ConnectionState) :
    (loginStartHandler env p w).world.conn.PacketHandler =
      handlers env (loginStartHandler env p w).world.conn.ConnectionState := by
  generalize ho : loginStartHandler env p w = o
  unfold loginStartHandler at ho
  repeat' split at ho
  all_goals subst ho
  all_goals simp [Outcome.world, World.Write, World.Disconnect, h]

theorem encryptionResponseHandler_assigned (env : Env) (p : RawPacket) (w : World)
    (h : w.conn.PacketHandler = handlers env w.conn.ConnectionState) :
    (encryptionResponseHandler env p w).world.conn.PacketHandler =
      handlers env (encryptionResponseHandler env p w).world.conn.ConnectionState := by
  generalize ho : encryptionResponseHandler env p w = o
  unfold encryptionResponseHandler at ho
  repeat' split at ho
  all_goals try (dsimp only at ho; repeat' split at ho)
  all_goals subst ho
  all_goals simp [Outcome.world, World.Write, World.Disconnect, World.record, AssignHandler,
    handlers, h]

theorem callOwnHandler_eq (env : Env) (q : RawPacket) (w : World)
    (h : w.conn.PacketHandler = handlers env w.conn.ConnectionState) :
    callOwnHandler env q w = CallHandler env q w := by
  unfold callOwnHandler CallHandler
  rw [h]

/-- C20: if the handler set stored on the connection is the dispatch-table entry of its phase,
then after `CallHandler` has handled any frame (returning or panicking) the stored handler set
is again the table entry of the phase the connection is then in, so that for every further
frame dispatching through the stored handler set and dispatching through `CallHandler` run the
same handler with the same result. -/
theorem CallHandler_keeps_assigned_handler (env : Env) (p : RawPacket) (w : World)
    (h : w.conn.PacketHandler = handlers env w.conn.ConnectionState) :
    (CallHandler env p w).world.conn.PacketHandler =
      handlers env (CallHandler env p w).world.conn.ConnectionState ∧
    (∀ q, callOwnHandler env q (CallHandler env p w).world
      = CallHandler env q (CallHandler env p w).world) ∧
    callOwnHandler env p w = CallHandler env p w := by
  have hinv : (CallHandler env p w).world.conn.PacketHandler =
      handlers env (CallHandler env p w).world.conn.ConnectionState := by
    rcases CallHandler_cases env p w with he | ⟨_, _, he⟩ | ⟨_, _, he⟩ | ⟨_, _, he⟩ |
      ⟨_, _, he⟩
    · rw [he]; exact h
    · rw [he]; exact handshakeHandler_assigned env p w h
    · rw [he, pingPongHandler_conn]; exact h
    · rw [he]; exact loginStartHandler_assigned env p w h
    · rw [he]; exact encryptionResponseHandler_assigned env p w h
  exact ⟨hinv, fun q => callOwnHandler_eq env q _ hinv, callOwnHandler_eq env p w h⟩

/-- Witness for C20: the handshake frame requesting login moves a fresh connection to the
Login phase and the stored handler set to the Login table. -/
theorem CallHandler_keeps_assigned_handler_witness :
    (CallHandler demoEnv (handshakeFrame 2) freshWorld).world.conn.ConnectionState = LoginState ∧
    (CallHandler demoEnv (handshakeFrame 2) freshWorld).world.conn.PacketHandler =
      handlers demoEnv (CallHandler demoEnv (handshakeFrame 2) freshWorld).world.conn.ConnectionState :=
  ⟨by decide, (CallHandler_keeps_assigned_handler demoEnv (handshakeFrame 2) freshWorld
    (by decide)).1⟩

/-! ## C13: byte arrays and strings -/

theorem utf8Char_length (c : Char) : (utf8Char c).length = c.utf8Size := by
  unfold utf8Char Char.utf8Size
  have h1 : (c.val ≤ UInt32.ofNatCore 0x7F (by decide)) ↔ c.toNat < 128 := by
    show c.val.toNat ≤ 127 ↔ c.val.toNat < 128
    omega
  have h2 : (c.val ≤ UInt32.ofNatCore 0x7FF (by decide)) ↔ c.toNat < 2048 := by
    show c.val.toNat ≤ 2047 ↔ c.val.toNat < 2048
    omega
  have h3 : (c.val ≤ UInt32.ofNatCore 0xFFFF (by decide)) ↔ c.toNat < 65536 := by
    show c.val.toNat ≤ 65535 ↔ c.val.toNat < 65536
    omega
  simp only [h1, h2, h3]
  repeat' split
  all_goals rfl

theorem str_length (s : String) : (str s).length = s.utf8ByteSize := by
  cases s with
  | mk cs =>
    show (cs.flatMap utf8Char).length = String.utf8ByteSize.go cs
    induction cs with
    | nil => rfl
    | cons c cs ih =>
      simp only [List.flatMap_cons, List.length_append, String.utf8ByteSize.go, ih,
        utf8Char_length]
      omega

/-- C13: `WriteByteArray(b)` leaves the buffer equal to its former contents followed by
`Uvarint(len(b))` and then `b`; `WriteString(s)` is `WriteByteArray` on the bytes of `s`, so
for a string literal the length prefix is the number of UTF-8 bytes of the string (two for
the single character `é`), not its number of characters; and the empty byte array and the
empty string add only the length prefix `Uvarint(0)`, the single byte `0`. -/
theorem WriteByteArray_WriteString_layout (r : Response) (b : List Byte) (s : GoString)
    (t : String) :
    (r.WriteByteArray b).data = r.data ++ Uvarint b.length ++ b ∧
    r.WriteString s = r.WriteByteArray s ∧
    (r.WriteString s).data = r.data ++ Uvarint s.length ++ s ∧
    (r.WriteString (str t)).data = r.data ++ Uvarint t.utf8ByteSize ++ str t ∧
    ((str "é").length = 2 ∧ ("é" : String).length = 1 ∧
      (NewResponse.WriteString (str "é")).data = [2, 195, 169]) ∧
    (r.WriteByteArray []).data = r.data ++ Uvarint 0 ∧
    (r.WriteString (str "")).data = r.data ++ Uvarint 0 ∧
    Uvarint 0 = [0] := by
  refine ⟨WriteByteArray_data r b, rfl, WriteByteArray_data r s, ?_, ⟨by decide, by decide,
    by decide⟩, ?_, ?_, by decide⟩
  · rw [← str_length]
    exact WriteByteArray_data r (str t)
  · simpa using WriteByteArray_data r []
  · have h : str "" = [] := by decide
    rw [h]
    simpa using WriteByteArray_data r []

/-! ## C14: fixed-width writers -/

theorem foldl_bigEndian (n : Nat) : ∀ (w a : Nat),
    (bigEndian w n).foldl (fun acc (b : Byte) => acc * 256 + b.val) a = a * 256 ^ w + n % 256 ^ w
  | 0, a => by simp [bigEndian, Nat.mod_one]
  | w + 1, a => by
    simp only [bigEndian, List.foldl_cons, toByte]
    rw [foldl_bigEndian n w, Nat.mod_pow_succ]
    ring

theorem fromBigEndian_bigEndian (w n : Nat) : fromBigEndian (bigEndian w n) = n % 256 ^ w := by
  unfold fromBigEndian
  rw [foldl_bigEndian]
  simp

theorem bigEndian_length (n : Nat) : ∀ w, (bigEndian w n).length = w
  | 0 => rfl
  | w + 1 => by simp [bigEndian, bigEndian_length n w]

/-- C14: every fixed-width writer leaves the former contents in place and appends exactly its
width. `WriteBoolean` appends the byte 1 for true and 0 for false; `WriteByte` appends the one
byte that is the two's complement of its signed argument; `WriteUnsignedByte` appends its
argument as one byte; `WriteInt` appends four bytes and `WriteLong` eight bytes whose
big-endian value is the argument when it is not negative and the argument plus `2^32`
(respectively `2^64`) when it is, that is the big-endian two's complement; `WriteUUID` appends
sixteen bytes, what `WriteLong` writes for the most significant half followed by what it writes
for the least significant half. -/
theorem fixed_width_writers (r : Response) :
    (∀ b : Bool, (r.WriteBoolean b).data = r.data ++ [if b then 1 else 0]) ∧
    (∀ b : Int, -128 ≤ b → b < 128 →
      ∃ x : Byte, (r.WriteByte b).data = r.data ++ [x] ∧
        (x.val : Int) = if 0 ≤ b then b else b + 256) ∧
    (∀ b : Nat, b < 256 →
      ∃ x : Byte, (r.WriteUnsignedByte b).data = r.data ++ [x] ∧ x.val = b) ∧
    (∀ i : Int, -2 ^ 31 ≤ i → i < 2 ^ 31 →
      ∃ bs, (r.WriteInt i).data = r.data ++ bs ∧ bs.length = 4 ∧
        (fromBigEndian bs : Int) = if 0 ≤ i then i else i + 2 ^ 32) ∧
    (∀ l : Int, -2 ^ 63 ≤ l → l < 2 ^ 63 →
      ∃ bs, (r.WriteLong l).data = r.data ++ bs ∧ bs.length = 8 ∧
        (fromBigEndian bs : Int) = if 0 ≤ l then l else l + 2 ^ 64) ∧
    (∀ u : UUID, ∃ hi lo, (r.WriteUUID u).data = r.data ++ hi ++ lo ∧
      hi.length = 8 ∧ lo.length = 8 ∧
      (NewResponse.WriteLong u.MostSig).data = hi ∧
      (NewResponse.WriteLong u.LeastSig).data = lo) := by
  refine ⟨?_, ?_, ?_, ?_, ?_, ?_⟩
  · intro b
    cases b <;> rfl
  · intro b h1 h2
    refine ⟨toByte (b % 256).toNat, rfl, ?_⟩
    simp only [toByte]
    split <;> omega
  · intro b hb
    refine ⟨toByte (b % 256), ?_, ?_⟩
    · simp [Response.WriteUnsignedByte, bigEndian]
    · simp only [toByte]
      omega
  · intro i h1 h2
    refine ⟨_, rfl, bigEndian_length _ _, ?_⟩
    rw [fromBigEndian_bigEndian]
    split <;> omega
  · intro l h1 h2
    refine ⟨_, rfl, bigEndian_length _ _, ?_⟩
    rw [fromBigEndian_bigEndian]
    split <;> omega
  · intro u
    refine ⟨bigEndian 8 (u.MostSig % 2 ^ 64).toNat, bigEndian 8 (u.LeastSig % 2 ^ 64).toNat, ?_,
      bigEndian_length _ _, bigEndian_length _ _, ?_, ?_⟩
    · simp [Response.WriteUUID, Response.WriteLong]
    · simp [Response.WriteLong, NewResponse]
    · simp [Response.WriteLong, NewResponse]

/-- Witness for C14: `WriteInt(-2)` on a buffer holding one byte. -/
theorem fixed_width_writers_witness :
    ∃ bs, ((⟨[9]⟩ : Response).WriteInt (-2)).data = [9] ++ bs ∧ bs.length = 4 ∧
      (fromBigEndian bs : Int) = if (0 : Int) ≤ -2 then -2 else -2 + 2 ^ 32 :=
  (fixed_width_writers ⟨[9]⟩).2.2.2.1 (-2) (by decide) (by decide)
/-! ## C16, C17: `WriteStructure` -/

theorem Response.ext_data (a b : Response) (h : a.data = b.data) : a = b := by
  cases a; cases b; simp_all

mutual
theorem WriteStructure_reference (z : GoValue → Bool)
    (hz : ∀ x, z x = true → structureBytes x = []) :
    ∀ (v : GoValue) (r : Response), v.supported = true →
      WriteStructure z r v = some ⟨r.data ++ structureBytes v⟩
  | .int8 _, r, _ | .uint8 _, r, _ | .bool _, r, _ | .int _, r, _ | .int32 _, r, _
  | .int64 _, r, _ | .uint32 _, r, _ | .float32 _, r, _ | .float64 _, r, _ | .string _, r, _
  | .bytes _, r, _ | .location _ _ _ _ _, r, _ | .uuid _, r, _ => by
    simp only [WriteStructure, structureBytes, Option.some.injEq]
    apply Response.ext_data
    simp [NewResponse, Response.WriteByte, Response.WriteUnsignedByte, Response.WriteBoolean,
      Response.WriteInt, Response.WriteVarint, Response.WriteLong, Response.WriteUVarint,
      Response.WriteFloat, Response.WriteDouble, Response.WriteString, Response.WriteByteArray,
      Response.WriteUUID]
    try (split <;> simp)
  | .struct fs, r, h => by
    simp only [WriteStructure, structureBytes]
    exact writeFields_reference z hz fs r (by simpa [GoValue.supported] using h)
  | .nilPointer, _, h | .pointer _, _, h | .other, _, h => by
    simp [GoValue.supported] at h
theorem writeFields_reference (z : GoValue → Bool)
    (hz : ∀ x, z x = true → structureBytes x = []) :
    ∀ (fs : GoFields) (r : Response), fs.supported = true →
      writeFields z r fs = some ⟨r.data ++ fieldsBytes fs⟩
  | .nil, r, _ => by simp [writeFields, fieldsBytes]
  | .cons e .nilPointer rest, r, h => by
    simp only [GoFields.supported, Bool.and_eq_true] at h
    simp only [writeFields, fieldsBytes]
    exact writeFields_reference z hz rest r h.2
  | .cons e (.pointer t) rest, r, h => by
    simp only [GoFields.supported, Bool.and_eq_true] at h
    obtain ⟨⟨he, ht⟩, hrest⟩ := h
    simp only [writeFields, fieldsBytes]
    split
    · rename_i hskip
      simp only [Bool.and_eq_true] at hskip
      rw [hz t hskip.2, List.nil_append]
      exact writeFields_reference z hz rest r hrest
    · simp only [he, Bool.true_eq_false, if_false]
      rw [WriteStructure_reference z hz t r ht]
      simp only []
      rw [writeFields_reference z hz rest _ hrest]
      simp
  | .cons e (.struct fs) rest, r, h => by
    simp only [GoFields.supported, Bool.and_eq_true] at h
    obtain ⟨⟨he, hf⟩, hrest⟩ := h
    simp only [writeFields, fieldsBytes]
    split
    · rename_i hskip
      simp only [Bool.and_eq_true] at hskip
      rw [hz _ hskip.2, List.nil_append]
      exact writeFields_reference z hz rest r hrest
    · simp only [he, Bool.true_eq_false, if_false]
      rw [WriteStructure_reference z hz (.struct fs) r hf]
      simp only []
      rw [writeFields_reference z hz rest _ hrest]
      simp
  | .cons e (.other) rest, r, h => by
    simp [GoFields.supported, GoValue.supported] at h
  | .cons e (.int8 x) rest, r, h | .cons e (.uint8 x) rest, r, h | .cons e (.bool x) rest, r, h
  | .cons e (.int x) rest, r, h | .cons e (.int32 x) rest, r, h | .cons e (.int64 x) rest, r, h
  | .cons e (.uint32 x) rest, r, h | .cons e (.float32 x) rest, r, h
  | .cons e (.float64 x) rest, r, h | .cons e (.string x) rest, r, h
  | .cons e (.bytes x) rest, r, h | .cons e (.uuid x) rest, r, h => by
    simp only [GoFields.supported, Bool.and_eq_true] at h
    obtain ⟨⟨he, hf⟩, hrest⟩ := h
    simp only [writeFields, fieldsBytes, GoValue.isStruct, Bool.false_and, Bool.false_eq_true,
      if_false, he]
    rw [WriteStructure_reference z hz _ r hf]
    simp only []
    rw [writeFields_reference z hz rest _ hrest]
    simp
  | .cons e (.location x y z1 yaw pitch) rest, r, h => by
    simp only [GoFields.supported, Bool.and_eq_true] at h
    obtain ⟨⟨he, hf⟩, hrest⟩ := h
    simp only [writeFields, fieldsBytes, GoValue.isStruct, Bool.false_and, Bool.false_eq_true,
      if_false, he]
    rw [WriteStructure_reference z hz _ r hf]
    simp only []
    rw [writeFields_reference z hz rest _ hrest]
    simp
end

/-- C16, the code at the failing input: a struct whose only field is an unexported `int8`
holding 1 is a value built from supported kinds, and the reference definition gives it the
encoding `[1]`, but `WriteStructure` panics on it (`f.Interface()` on an unexported field);
the same struct with the field exported is written as `[1]`. -/
theorem unexported_field_panics :
    WriteStructure (fun _ => false) NewResponse (.struct (.cons false (.int8 1) .nil)) = none ∧
    structureBytes (.struct (.cons false (.int8 1) .nil)) = [1] ∧
    WriteStructure (fun _ => false) NewResponse (.struct (.cons true (.int8 1) .nil))
      = some ⟨[1]⟩ := by
  decide

/-- Where `WriteStructure` does follow the reference definition: for every value built from
supported kinds whose struct fields are all exported, and as long as the comparison
`reflect.Zero(f.Type()) == f` holds only for struct fields that encode to no bytes,
`WriteStructure` returns and leaves the buffer equal to its
former contents followed by the reference encoding of the value: a directly supported kind as
its dedicated writer writes it, a composite value as the concatenation of the encodings of
its fields in declaration order, a nil pointer field contributing nothing and a non-nil
pointer field the encoding of what it points to. -/
theorem WriteStructure_eq_reference (z : GoValue → Bool) (r : Response) (v : GoValue)
    (hv : v.supported = true)
    (hz : ∀ x, z x = true → structureBytes x = []) :
    WriteStructure z r v = some ⟨r.data ++ structureBytes v⟩ :=
  WriteStructure_reference z hz v r hv

/-- An `int8`, a nil pointer and a pointer to a `uint32` after two bytes already written. -/
theorem WriteStructure_eq_reference_witness :
    WriteStructure (fun _ => false) ⟨[9, 9]⟩ demoStruct = some ⟨[9, 9, 255, 172, 2]⟩ :=
  (WriteStructure_eq_reference (fun _ => false) ⟨[9, 9]⟩ demoStruct (by decide)
    (by intro x hx; cases hx)).trans (by decide)

/-- C17, the code at the failing input: a struct with an exported field of a type that is
neither supported nor a struct (a 16-bit integer, a map, a slice that is not `[]byte`) makes
`WriteStructure` panic, whatever comes before or after the field, while the same struct
without that field is written. -/
theorem unsupported_field_panics (z : GoValue → Bool) (r : Response) (rest : GoFields) :
    WriteStructure z r (.struct (.cons true .other rest)) = none ∧
    WriteStructure z r (.struct (.cons true (.int8 1) (.cons true .other rest))) = none ∧
    WriteStructure z r (.struct (.cons true (.int8 1) .nil)) = some ⟨r.data ++ [1]⟩ ∧
    WriteStructure z r .other = none := by
  refine ⟨?_, ?_, ?_, rfl⟩
  · simp [WriteStructure, writeFields, GoValue.isStruct]
  · simp [WriteStructure, writeFields, GoValue.isStruct]
  · simp [WriteStructure, writeFields, GoValue.isStruct, Response.WriteByte]
    rfl
/-! ## C15: writes are appended in call order -/

theorem after_after (r a b : Response) : (r.after a).after b = r.after (a.after b) := by
  simp [Response.after]

theorem fields_step (z : GoValue → Bool) (t : GoValue) (rest : GoFields) (r : Response)
    (ht : WriteStructure z r t = (WriteStructure z NewResponse t).map r.after)
    (hrest : ∀ r1, writeFields z r1 rest = (writeFields z NewResponse rest).map r1.after) :
    (match WriteStructure z r t with
      | none => none
      | some r1 => writeFields z r1 rest) =
    (match WriteStructure z NewResponse t with
      | none => none
      | some r1 => writeFields z r1 rest).map r.after := by
  rw [ht]
  cases WriteStructure z NewResponse t with
  | none => rfl
  | some a =>
    simp only [Option.map_some']
    rw [hrest (r.after a), hrest a]
    cases writeFields z NewResponse rest with
    | none => rfl
    | some b => simp [after_after]

mutual
theorem WriteStructure_after (z : GoValue → Bool) :
    ∀ (v : GoValue) (r : Response),
      WriteStructure z r v = (WriteStructure z NewResponse v).map r.after
  | .int8 _, r | .uint8 _, r | .bool _, r | .int _, r | .int32 _, r
  | .int64 _, r | .uint32 _, r | .float32 _, r | .float64 _, r | .string _, r
  | .bytes _, r | .location _ _ _ _ _, r | .uuid _, r => by
    simp only [WriteStructure, Option.map_some', Option.some.injEq]
    apply Response.ext_data
    simp [Response.after, NewResponse, Response.WriteByte, Response.WriteUnsignedByte,
      Response.WriteBoolean, Response.WriteInt, Response.WriteVarint, Response.WriteLong,
      Response.WriteUVarint, Response.WriteFloat, Response.WriteDouble, Response.WriteString,
      Response.WriteByteArray, Response.WriteUUID]
    try (split <;> simp)
  | .struct fs, r => by
    simp only [WriteStructure]
    exact writeFields_after z fs r
  | .nilPointer, _ | .pointer _, _ | .other, _ => by
    simp [WriteStructure]
theorem writeFields_after (z : GoValue → Bool) :
    ∀ (fs : GoFields) (r : Response),
      writeFields z r fs = (writeFields z NewResponse fs).map r.after
  | .nil, r => by
    simp only [writeFields, Option.map_some', Option.some.injEq]
    apply Response.ext_data
    simp [Response.after, NewResponse]
  | .cons e .nilPointer rest, r => by
    simp only [writeFields]
    exact writeFields_after z rest r
  | .cons e (.pointer t) rest, r => by
    simp only [writeFields]
    split
    · exact writeFields_after z rest r
    · split
      · rfl
      · exact fields_step z t rest r (WriteStructure_after z t r)
          (fun r1 => writeFields_after z rest r1)
  | .cons e (.struct fs) rest, r => by
    simp only [writeFields]
    split
    · exact writeFields_after z rest r
    · split
      · rfl
      · exact fields_step z (.struct fs) rest r (WriteStructure_after z (.struct fs) r)
          (fun r1 => writeFields_after z rest r1)
  | .cons e (.int8 x) rest, r => by
    simp only [writeFields]
    split
    · exact writeFields_after z rest r
    · split
      · rfl
      · exact fields_step z (.int8 x) rest r (WriteStructure_after z (.int8 x) r)
          (fun r1 => writeFields_after z rest r1)
  | .cons e (.uint8 x) rest, r => by
    simp only [writeFields]
    split
    · exact writeFields_after z rest r
    · split
      · rfl
      · exact fields_step z (.uint8 x) rest r (WriteStructure_after z (.uint8 x) r)
          (fun r1 => writeFields_after z rest r1)
  | .cons e (.bool x) rest, r => by
    simp only [writeFields]
    split
    · exact writeFields_after z rest r
    · split
      · rfl
      · exact fields_step z (.bool x) rest r (WriteStructure_after z (.bool x) r)
          (fun r1 => writeFields_after z rest r1)
  | .cons e (.int x) rest, r => by
    simp only [writeFields]
    split
    · exact writeFields_after z rest r
    · split
      · rfl
      · exact fields_step z (.int x) rest r (WriteStructure_after z (.int x) r)
          (fun r1 => writeFields_after z rest r1)
  | .cons e (.int32 x) rest, r => by
    simp only [writeFields]
    split
    · exact writeFields_after z rest r
    · split
      · rfl
      · exact fields_step z (.int32 x) rest r (WriteStructure_after z (.int32 x) r)
          (fun r1 => writeFields_after z rest r1)
  | .cons e (.int64 x) rest, r => by
    simp only [writeFields]
    split
    · exact writeFields_after z rest r
    · split
      · rfl
      · exact fields_step z (.int64 x) rest r (WriteStructure_after z (.int64 x) r)
          (fun r1 => writeFields_after z rest r1)
  | .cons e (.uint32 x) rest, r => by
    simp only [writeFields]
    split
    · exact writeFields_after z rest r
    · split
      · rfl
      · exact fields_step z (.uint32 x) rest r (WriteStructure_after z (.uint32 x) r)
          (fun r1 => writeFields_after z rest r1)
  | .cons e (.float32 x) rest, r => by
    simp only [writeFields]
    split
    · exact writeFields_after z rest r
    · split
      · rfl
      · exact fields_step z (.float32 x) rest r (WriteStructure_after z (.float32 x) r)
          (fun r1 => writeFields_after z rest r1)
  | .cons e (.float64 x) rest, r => by
    simp only [writeFields]
    split
    · exact writeFields_after z rest r
    · split
      · rfl
      · exact fields_step z (.float64 x) rest r (WriteStructure_after z (.float64 x) r)
          (fun r1 => writeFields_after z rest r1)
  | .cons e (.string x) rest, r => by
    simp only [writeFields]
    split
    · exact writeFields_after z rest r
    · split
      · rfl
      · exact fields_step z (.string x) rest r (WriteStructure_after z (.string x) r)
          (fun r1 => writeFields_after z rest r1)
  | .cons e (.bytes x) rest, r => by
    simp only [writeFields]
    split
    · exact writeFields_after z rest r
    · split
      · rfl
      · exact fields_step z (.bytes x) rest r (WriteStructure_after z (.bytes x) r)
          (fun r1 => writeFields_after z rest r1)
  | .cons e (.uuid x) rest, r => by
    simp only [writeFields]
    split
    · exact writeFields_after z rest r
    · split
      · rfl
      · exact fields_step z (.uuid x) rest r (WriteStructure_after z (.uuid x) r)
          (fun r1 => writeFields_after z rest r1)
  | .cons e (.location x y z1 yaw pitch) rest, r => by
    simp only [writeFields]
    split
    · exact writeFields_after z rest r
    · split
      · rfl
      · exact fields_step z (.location x y z1 yaw pitch) rest r (WriteStructure_after z (.location x y z1 yaw pitch) r)
          (fun r1 => writeFields_after z rest r1)
  | .cons e .other rest, r => by
    simp only [writeFields]
    split
    · exact writeFields_after z rest r
    · split
      · rfl
      · exact fields_step z .other rest r (WriteStructure_after z .other r)
          (fun r1 => writeFields_after z rest r1)
end

theorem run_encoding (z : GoValue → Bool) (c : WriteCall) (r : Response) :
    c.run z r = (c.encoding z).map (fun e => ⟨r.data ++ e⟩) := by
  cases c with
  | json m =>
    cases m with
    | none => simp [WriteCall.run, WriteCall.encoding, Response.WriteJSON]
    | some j =>
      simp only [WriteCall.run, WriteCall.encoding, Response.WriteJSON, Option.map_some',
        Option.some.injEq]
      apply Response.ext_data
      simp [WriteByteArray_data]
  | struct v =>
    simp only [WriteCall.run, WriteCall.encoding]
    rw [WriteStructure_after]
    cases WriteStructure z NewResponse v <;> simp [Response.after]
  | boolean b =>
    cases b <;> simp [WriteCall.run, WriteCall.encoding, Response.WriteBoolean,
      Response.WriteByte, toByte]
  | byte _ | unsignedByte _ | uvarint _ | varint _ | int _ | long _ | float _ | double _
  | uuid _ | byteArray _ | string _ =>
    simp only [WriteCall.run, WriteCall.encoding, Option.map_some', Option.some.injEq]
    apply Response.ext_data
    simp [Response.WriteByte, Response.WriteUnsignedByte,
      Response.WriteInt, Response.WriteVarint, Response.WriteLong, Response.WriteUVarint,
      Response.WriteFloat, Response.WriteDouble, Response.WriteString, WriteByteArray_data,
      Response.WriteUUID, bigEndian, toByte]

theorem runCalls_encodings (z : GoValue → Bool) (cs : List WriteCall) :
    ∀ r : Response, runCalls z cs r = (encodings z cs).map (fun e => ⟨r.data ++ e⟩) := by
  induction cs with
  | nil => intro r; simp [runCalls, encodings]
  | cons c cs ih =>
    intro r
    simp only [runCalls, encodings, run_encoding z c r]
    cases c.encoding z with
    | none => simp
    | some e =>
      simp only [Option.map_some', ih]
      cases encodings z cs <;> simp

theorem encodings_total (z : GoValue → Bool) (cs : List WriteCall)
    (h : ∀ c ∈ cs, (c.encoding z).isSome = true) :
    encodings z cs = some (cs.flatMap (fun c => (c.encoding z).getD [])) := by
  induction cs with
  | nil => rfl
  | cons c cs ih =>
    have hc := h c (List.mem_cons_self _ _)
    have hcs := ih (fun c1 h1 => h c1 (List.mem_cons_of_mem _ h1))
    simp only [encodings, hcs, List.flatMap_cons]
    cases hce : c.encoding z with
    | none => simp [hce] at hc
    | some e => simp

/-- C15: on a `Response` holding `B`, a sequence of `Write*` calls leaves `B` followed by the
concatenation, in call order, of the encodings of the calls, and panics exactly when one of
the calls does. So `ToRawPacket(id)` on a response created by `NewResponse` or reset by
`Clear` yields, after a sequence of calls none of which panics, the frame with id `id` and
payload exactly that concatenation, and the frame with the empty payload when no call was
made. -/
theorem writes_append_in_call_order (z : GoValue → Bool) (cs : List WriteCall) (r : Response)
    (id : Nat) :
    runCalls z cs r = (encodings z cs).map (fun e => ⟨r.data ++ e⟩) ∧
    ((∀ c ∈ cs, (c.encoding z).isSome = true) →
      runCalls z cs r = some ⟨r.data ++ cs.flatMap (fun c => (c.encoding z).getD [])⟩ ∧
      (runCalls z cs NewResponse).map (fun r1 => r1.ToRawPacket id)
        = some ⟨id, cs.flatMap (fun c => (c.encoding z).getD [])⟩ ∧
      (runCalls z cs r.Clear).map (fun r1 => r1.ToRawPacket id)
        = some ⟨id, cs.flatMap (fun c => (c.encoding z).getD [])⟩) ∧
    NewResponse.ToRawPacket id = ⟨id, []⟩ ∧
    r.Clear.ToRawPacket id = ⟨id, []⟩ := by
  refine ⟨runCalls_encodings z cs r, ?_, rfl, rfl⟩
  intro h
  have he := encodings_total z cs h
  refine ⟨?_, ?_, ?_⟩
  · rw [runCalls_encodings, he]; rfl
  · rw [runCalls_encodings, he]; simp [NewResponse, Response.ToRawPacket]
  · rw [runCalls_encodings, he]; simp [Response.Clear, Response.ToRawPacket]

/-- Witness for C15: the calls `encryptionResponseHandler` makes for the join frame. -/
theorem writes_append_in_call_order_witness :
    (runCalls (fun _ => false)
        [.int 0, .unsignedByte 1, .int 0, .unsignedByte 0, .unsignedByte 0,
          .string (str "default"), .boolean false]
        (⟨[1, 2, 3]⟩ : Response).Clear).map (fun r1 => r1.ToRawPacket 35)
      = some ⟨35, [0, 0, 0, 0, 1, 0, 0, 0, 0, 0, 0, 7, 100, 101, 102, 97, 117, 108, 116, 0]⟩ :=
  ((writes_append_in_call_order (fun _ => false)
    [.int 0, .unsignedByte 1, .int 0, .unsignedByte 0, .unsignedByte 0,
      .string (str "default"), .boolean false] ⟨[1, 2, 3]⟩ 35).2.1 (by decide)).2.2.trans
    (by decide)

end Goelan
